import Mathlib

/-!
Verification development for the staging-sync tool (src/stage_sync.py).

The tool maintains a "staging" working copy of a local git project and moves
commits between the staging copy and the original "work" copy through
temporary branches on one shared remote.  This file gives a shallow
embedding of the data model and of the two core operations, `clone_project`
and `sync_back`, and proves the specification claims about them.

Modelling conventions:
* commit histories are linear lists of commit ids, newest first; a history
  `h1` is an ancestor of `h2` exactly when `h1` is a suffix of `h2`;
* a repository is a record of local branches, remote-tracking refs,
  upstreams, the checked-out branch (none = detached HEAD), a dirty-tree
  flag, the url of its `origin` remote, and a flag for the `.git` directory;
* the filesystem is an association list from absolute paths to nodes;
* operations of the external git binary that touch the network
  (push / fetch / branch deletion) may also fail for reasons outside the
  modelled state, so each such call site carries an injected success flag in
  `Env`; purely local git operations are deterministic in the model;
* Python's `fail()` (sys.exit) and an uncaught `CalledProcessError` both
  abort the operation; they are modelled by the `ErrKind` carried in the
  result.  A `try/finally` block is modelled by running the cleanup code on
  every path out of the protected section.
-/

namespace StageSync

/-- Commit history of a branch: commit ids, newest first. -/
abbrev Hist := List Nat

/-- Lookup in an association list keyed by strings (first binding wins),
mirroring Python dict access in the registry and the modelled stores. -/
def lookupKey {α : Type} : List (String × α) → String → Option α
  | [], _ => none
  | (k', v) :: t, k => if k' = k then some v else lookupKey t k

/-- Replace the first binding of a key, or append a new binding. -/
def setKey {α : Type} : List (String × α) → String → α → List (String × α)
  | [], k, v => [(k, v)]
  | (k', v') :: t, k, v =>
      if k' = k then (k, v) :: t else (k', v') :: setKey t k v

/-- Remove every binding of a key. -/
def removeKey {α : Type} : List (String × α) → String → List (String × α)
  | [], _ => []
  | (k', v') :: t, k =>
      if k' = k then removeKey t k else (k', v') :: removeKey t k

/-- Absolute paths start with a slash (POSIX model of `Path.is_absolute`). -/
def isAbsPath (p : String) : Bool :=
  match p.data with
  | '/' :: _ => true
  | _ => false

/-- Join a base directory and a relative path. -/
def joinPath (base p : String) : String := base ++ "/" ++ p

/-- Last path component, modelling `pathlib.Path(...).name` on a
normalized path (no trailing slash). -/
def pathName (p : String) : String :=
  let rev := p.data.reverse.takeWhile (fun c => !(c = '/'))
  if rev.isEmpty then p else String.mk rev.reverse

/-- Relative path of `p` under `base`, modelling `Path.relative_to` on a
path already known to be contained in `base`. -/
def relativeTo (base p : String) : String :=
  if p = base then "." else String.mk (p.data.drop (base.data.length + 1))

/-- Shallow model of `resolve_under_root` (stage_sync.py lines 81-91):
resolve the candidate against the base when it is relative, and require the
result to stay inside the base; paths are assumed normalized. Returns `none`
where the Python code calls `fail(... is outside of ...)`. -/
def resolve_under_root (base : String) (cand : String) : Option String :=
  let resolved := if isAbsPath cand then cand else joinPath base cand
  if resolved = base || List.isPrefixOf (base ++ "/").data resolved.data then some resolved
  else none

/-- A local git repository. -/
structure Repo where
  hasGit : Bool
  branches : List (String × Hist)
  upstreams : List (String × String)
  remoteRefs : List (String × Hist)
  current : Option String
  dirty : Bool
  remoteUrl : Option String
deriving DecidableEq, Repr

/-- The shared remote: its branches. -/
structure Remote where
  branches : List (String × Hist)
deriving DecidableEq, Repr

/-- A filesystem node: a plain file, or a directory carrying a `Repo`
record (a non-repository directory is a `Repo` with `hasGit := false`). -/
inductive FSNode where
  | file : FSNode
  | dir : Repo → FSNode
deriving DecidableEq, Repr

/-- The filesystem: absolute path to node; missing key = path absent. -/
abbrev FS := List (String × FSNode)

/-- A registry entry, modelling one value of the persisted
`{"projects": {...}}` mapping.  `work_path` is always written by the tool;
the remaining keys are read with `.get` and so are optional. -/
structure Entry where
  work_name : Option String
  work_path : String
  staging_path : Option String
  branch : Option String
  base_branch : Option String
  staging_branch : Option String
  remote : Option String
  temp_branch : Option String
  last_temp_branch : Option String
deriving DecidableEq, Repr

/-- The persisted registry (config file content). -/
structure Config where
  projects : List (String × Entry)
deriving DecidableEq, Repr

/-- History of the commit at HEAD: the tip of the checked-out branch. -/
def headHist (r : Repo) : Hist :=
  match r.current with
  | some b => (lookupKey r.branches b).getD []
  | none => []

/-- Characters kept unchanged by `sanitize_for_branch`
(`ch.isalnum() or ch in "-_."`; `isalnum` modelled on ASCII input, where it
agrees with `Char.isAlphanum`). -/
def branchSafeChar (c : Char) : Bool :=
  c.isAlphanum || c = '-' || c = '_' || c = '.'

/-- Strip leading and trailing dashes, modelling `str.strip("-")`. -/
def stripDashes (l : List Char) : List Char :=
  ((l.dropWhile (fun c => c = '-')).reverse.dropWhile (fun c => c = '-')).reverse

/-- Model of `sanitize_for_branch` (stage_sync.py lines 176-184): keep
alphanumerics and `-_.`, replace every other character by `-`, strip
leading/trailing dashes, and fall back to `"project"` when empty. -/
def sanitize_for_branch (component : String) : String :=
  let mapped := component.data.map (fun c => if branchSafeChar c then c else '-')
  let stripped := stripDashes mapped
  if stripped.isEmpty then "project" else String.mk stripped

/-- Fixed first component of every generated temporary branch name
(`TEMP_BRANCH_PREFIX` in the source). -/
def tempBranchRoot : String := "staging-sync"

/-- Model of `make_temp_branch_name` (stage_sync.py lines 187-191); `now`
stands for `int(time.time())` at the call. -/
def make_temp_branch_name (stage_rel : String) (branch : String) (now : Nat) : String :=
  tempBranchRoot ++ "/" ++ sanitize_for_branch stage_rel ++ "-" ++
    sanitize_for_branch branch ++ "-" ++ Nat.repr now

/-- Reasons an operation aborts: `fail()` messages and propagated
`CalledProcessError`s, keyed by the failing check or git call. -/
inductive ErrKind where
  | outsideRoot
  | stageMissing
  | stageNotGit
  | workMissing
  | workNotGit
  | dirtyStage
  | dirtyWork
  | detachedStage
  | detachedWork
  | noRemoteStage
  | noRemoteWork
  | remoteMismatch
  | tempBranchTaken
  | pushTempFailed
  | fetchTempFailed
  | fetchTargetFailed
  | notOnTargetBranch
  | ffOnlyFailed
  | pushUpstreamFailed
  | workRootMissing
  | sourceMissing
  | sourceNotDir
  | sourceNotGit
  | detachedSource
  | noRemoteSource
  | bootstrapPushFailed
  | targetExistsNoForce
  | refuseRemoveSource
deriving DecidableEq, Repr

/-- Command-line arguments of the `sync-back` subcommand. -/
structure SyncArgs where
  staging_name : String
  work_name : Option String
  branch : Option String
  temp_branch : Option String
  auto_checkout : Bool
  force : Bool
  allow_dirty_stage : Bool
  allow_dirty_work : Bool
deriving DecidableEq, Repr

/-- Command-line arguments of the `clone` subcommand. -/
structure CloneArgs where
  project : String
  as_name : Option String
  temp_branch : Option String
  force : Bool
deriving DecidableEq, Repr

/-- Execution environment: the clock readings used for generated branch
names, and injected success flags for the git calls that touch the network
and can fail for reasons outside the modelled state. -/
structure Env where
  now : Nat
  now2 : Nat
  pushTempOk : Bool
  fetchTempOk : Bool
  fetchTargetOk : Bool
  pushUpstreamOk : Bool
  deleteTempOk : Bool
  bootstrapPushOk : Bool
  clonePushOk : Bool
  cloneFetchOk : Bool
deriving DecidableEq, Repr

/-- Everything `sync_back` has established once all pre-publication gates
have passed (stage_sync.py lines 269-345): resolved locations and
repositories, the staging HEAD branch and the commit it will publish, the
target branch, the chosen temporary branch, and the shared remote url. -/
structure Ctx where
  stagePath : String
  workPath : String
  workLabel : String
  stage : Repo
  work : Repo
  stagingBranch : String
  targetBranch : String
  temp : String
  remoteUrl : String
  pushHist : Hist
  warnedMissingBranch : Bool
deriving DecidableEq, Repr

/-- Work-repository location and label resolution (stage_sync.py lines
282-290): explicit `--work-name` override, else the registry entry's
recorded path, else the staging name itself under the work root. -/
def resolveWorkInfo (workRoot : String) (entry : Option Entry) (args : SyncArgs) :
    Except ErrKind (String × String) :=
  match args.work_name with
  | some wn =>
    match resolve_under_root workRoot wn with
    | none => .error .outsideRoot
    | some wp => .ok (wp, wn)
  | none =>
    match entry with
    | some e => .ok (e.work_path, e.work_name.getD (pathName e.work_path))
    | none =>
      match resolve_under_root workRoot (pathName args.staging_name) with
      | none => .error .outsideRoot
      | some wp => .ok (wp, pathName args.staging_name)

/-- Temporary-branch precedence (stage_sync.py lines 319-324): explicit
name, else recorded name, else freshly generated. -/
def chooseTempBranch (explicitT recordedT : Option String) (generated : String) : String :=
  match explicitT with
  | some t => t
  | none =>
    match recordedT with
    | some t => t
    | none => generated

/-- Collision handling for the chosen temporary branch (stage_sync.py lines
334-345): the remote is consulted only when no name was recorded or an
explicit name was given; an explicit name that exists remotely is fatal; a
colliding auto-generated name is regenerated (with a later clock reading);
a recorded name is reused without any check. -/
def resolveTempCollision (explicitT recordedT : Option String) (chosen regen : String)
    (remote : Remote) : Except ErrKind String :=
  if recordedT.isNone || explicitT.isSome then
    let existing := (lookupKey remote.branches chosen).isSome
    if existing && explicitT.isNone && recordedT.isNone then .ok regen
    else if existing && explicitT.isSome then .error .tempBranchTaken
    else .ok chosen
  else .ok chosen

/-- Full temporary-branch selection: precedence followed by collision
handling (stage_sync.py lines 319-345; the remote-url gate that sits
between the two pieces in the source neither fails on nor mutates anything
this function reads). -/
def selectTempBranch (explicitT recordedT : Option String) (generated regen : String)
    (remote : Remote) : Except ErrKind String :=
  resolveTempCollision explicitT recordedT (chooseTempBranch explicitT recordedT generated)
    regen remote

/-- All read-only gates of `sync_back` before the staging commit is
published (stage_sync.py lines 269-345), in source failure order: staging
path resolution/existence/repository checks, work resolution and checks,
the per-side cleanliness gates, the detached-HEAD check, target-branch
selection and the missing-branch warning, the remote-identity gate, and
temporary-branch selection. -/
def syncGates (now now2 : Nat) (stagingRoot workRoot : String) (fs : FS) (remote : Remote)
    (cfg : Config) (args : SyncArgs) : Except ErrKind Ctx :=
  match resolve_under_root stagingRoot args.staging_name with
  | none => .error .outsideRoot
  | some stagePath =>
  match lookupKey fs stagePath with
  | none => .error .stageMissing
  | some .file => .error .stageNotGit
  | some (.dir stage) =>
  if !stage.hasGit then .error .stageNotGit else
  let entry := lookupKey cfg.projects args.staging_name
  match resolveWorkInfo workRoot entry args with
  | .error e => .error e
  | .ok (workPath, workLabel) =>
  match lookupKey fs workPath with
  | none => .error .workMissing
  | some .file => .error .workNotGit
  | some (.dir work) =>
  if !work.hasGit then .error .workNotGit else
  if !args.allow_dirty_stage && stage.dirty then .error .dirtyStage else
  if !args.allow_dirty_work && work.dirty then .error .dirtyWork else
  match stage.current with
  | none => .error .detachedStage
  | some stagingBranch =>
  let storedBase := entry.bind (·.base_branch)
  let recordedTemp := entry.bind (·.temp_branch)
  let targetBranch := args.branch.getD (storedBase.getD stagingBranch)
  let warned :=
    match args.branch with
    | some b => b != stagingBranch && (lookupKey stage.branches b).isNone
    | none => false
  match stage.remoteUrl with
  | none => .error .noRemoteStage
  | some surl =>
  match work.remoteUrl with
  | none => .error .noRemoteWork
  | some wurl =>
  if wurl != surl then .error .remoteMismatch else
  let generated := make_temp_branch_name args.staging_name stagingBranch now
  let regen := make_temp_branch_name args.staging_name stagingBranch now2
  match selectTempBranch args.temp_branch recordedTemp generated regen remote with
  | .error e => .error e
  | .ok temp =>
  .ok { stagePath := stagePath, workPath := workPath, workLabel := workLabel,
        stage := stage, work := work, stagingBranch := stagingBranch,
        targetBranch := targetBranch, temp := temp, remoteUrl := surl,
        pushHist := headHist stage, warnedMissingBranch := warned }

/-- Publication of the staging HEAD to the temporary remote branch
(stage_sync.py lines 347-354): `git push origin HEAD:refs/heads/<temp>`.
Creating the branch always succeeds; updating an existing branch requires a
fast-forward; `pushOk` injects transport failure. -/
def syncPush (pushOk : Bool) (remote : Remote) (temp : String) (pushHist : Hist) :
    Except ErrKind Remote :=
  let ffOk :=
    match lookupKey remote.branches temp with
    | none => true
    | some h => h.isSuffixOf pushHist
  if pushOk && ffOk then .ok { branches := setKey remote.branches temp pushHist }
  else .error .pushTempFailed

/-- Materialization in the work repository (stage_sync.py lines 357-392):
fetch the temporary branch; if the target branch is missing locally, fetch
`origin/<target>` and `checkout -B <target> origin/<target>`; then require
the current branch to be the target, switching only under `--auto-checkout`.
Returns the (possibly partially mutated) work repository and the error, if
any, that aborted the block. -/
def syncMaterialize (fetchTempOk fetchTargetOk : Bool) (autoCheckout : Bool) (ctx : Ctx)
    (remote : Remote) : Repo × Option ErrKind :=
  let work := ctx.work
  match lookupKey remote.branches ctx.temp with
  | none => (work, some .fetchTempFailed)
  | some tempHist =>
  if !fetchTempOk then (work, some .fetchTempFailed) else
  let work1 : Repo := { work with remoteRefs := setKey work.remoteRefs ctx.temp tempHist }
  let branchExists := (lookupKey work1.branches ctx.targetBranch).isSome
  let afterCreate : Repo × Option ErrKind :=
    if !branchExists then
      match lookupKey remote.branches ctx.targetBranch with
      | none => (work1, some .fetchTargetFailed)
      | some th =>
        if !fetchTargetOk then (work1, some .fetchTargetFailed) else
        ({ work1 with
            remoteRefs := setKey work1.remoteRefs ctx.targetBranch th,
            branches := setKey work1.branches ctx.targetBranch th,
            upstreams := setKey work1.upstreams ctx.targetBranch
              ("origin/" ++ ctx.targetBranch),
            current := some ctx.targetBranch }, none)
    else (work1, none)
  match afterCreate with
  | (w, some e) => (w, some e)
  | (work2, none) =>
    match work2.current with
    | none => (work2, some .detachedWork)
    | some cur =>
      if cur != ctx.targetBranch then
        if autoCheckout then ({ work2 with current := some ctx.targetBranch }, none)
        else (work2, some .notOnTargetBranch)
      else (work2, none)

/-- Integration (stage_sync.py lines 394-422): with `--force`, hard-reset
the target branch to `origin/<temp>` (also discarding any uncommitted
changes); otherwise `git merge --ff-only origin/<temp>`, which fast-forwards
when the current tip is an ancestor of the fetched commit, reports
already-up-to-date (success, no change) when the fetched commit is an
ancestor of the current tip, and fails when the histories have diverged. -/
def syncIntegrate (force : Bool) (targetBranch temp : String) (work : Repo) :
    Repo × Option ErrKind :=
  let fetched := (lookupKey work.remoteRefs temp).getD []
  if force then
    ({ work with branches := setKey work.branches targetBranch fetched, dirty := false }, none)
  else
    let cur := (lookupKey work.branches targetBranch).getD []
    if cur.isSuffixOf fetched then
      ({ work with branches := setKey work.branches targetBranch fetched }, none)
    else if fetched.isSuffixOf cur then (work, none)
    else (work, some .ffOnlyFailed)

/-- Upstream propagation (stage_sync.py lines 424-425): push the updated
target branch to the shared remote (fast-forward required on the remote
side; `pushOk` injects transport failure). -/
def syncUpstream (pushOk : Bool) (targetBranch : String) (work : Repo) (remote : Remote) :
    Remote × Option ErrKind :=
  let localHist := (lookupKey work.branches targetBranch).getD []
  let ffOk :=
    match lookupKey remote.branches targetBranch with
    | none => true
    | some h => h.isSuffixOf localHist
  if pushOk && ffOk then
    ({ branches := setKey remote.branches targetBranch localHist }, none)
  else (remote, some .pushUpstreamFailed)

/-- Cleanup (stage_sync.py lines 426-439): delete the temporary branch from
the remote; a failure (injected, or the branch being absent) only raises a
warning flag, never an error. -/
def syncCleanup (deleteOk : Bool) (temp : String) (remote : Remote) : Remote × Bool :=
  if deleteOk && (lookupKey remote.branches temp).isSome then
    ({ branches := removeKey remote.branches temp }, false)
  else (remote, true)

/-- Observable outcome of one `sync_back` invocation: final filesystem,
remote and registry, the abort reason if any, and trace flags recording
which control points were reached. -/
structure SyncResult where
  fs : FS
  remote : Remote
  config : Config
  err : Option ErrKind
  pushedTemp : Bool
  reachedIntegration : Bool
  cleanupTried : Bool
  cleanupWarned : Bool
  warnedMissingBranch : Bool
  configSaved : Bool
  usedTempBranch : Option String
  pushedHist : Option Hist
  targetBranchUsed : Option String
  workPathUsed : Option String
  integTargetHist : Option Hist
  finalTargetHist : Option Hist
deriving DecidableEq, Repr

/-- Model of `sync_back` (stage_sync.py lines 269-457): gates, publication,
then the `try` block (materialize, integrate, push upstream) whose every
exit path runs the `finally` cleanup; the registry is rewritten only on
full success. -/
def sync_back (env : Env) (stagingRoot workRoot : String) (fs : FS) (remote : Remote)
    (cfg : Config) (args : SyncArgs) : SyncResult :=
  match syncGates env.now env.now2 stagingRoot workRoot fs remote cfg args with
  | .error e =>
    { fs := fs, remote := remote, config := cfg, err := some e, pushedTemp := false,
      reachedIntegration := false, cleanupTried := false, cleanupWarned := false,
      warnedMissingBranch := false, configSaved := false, usedTempBranch := none,
      pushedHist := none, targetBranchUsed := none, workPathUsed := none,
      integTargetHist := none, finalTargetHist := none }
  | .ok ctx =>
    match syncPush env.pushTempOk remote ctx.temp ctx.pushHist with
    | .error e =>
      { fs := fs, remote := remote, config := cfg, err := some e, pushedTemp := false,
        reachedIntegration := false, cleanupTried := false, cleanupWarned := false,
        warnedMissingBranch := ctx.warnedMissingBranch, configSaved := false,
        usedTempBranch := some ctx.temp, pushedHist := none,
        targetBranchUsed := some ctx.targetBranch, workPathUsed := some ctx.workPath,
        integTargetHist := none, finalTargetHist := none }
    | .ok remote1 =>
      let mat := syncMaterialize env.fetchTempOk env.fetchTargetOk args.auto_checkout ctx remote1
      match mat with
      | (workM, some e) =>
        let cl := syncCleanup env.deleteTempOk ctx.temp remote1
        { fs := setKey fs ctx.workPath (.dir workM), remote := cl.1, config := cfg,
          err := some e, pushedTemp := true, reachedIntegration := false,
          cleanupTried := true, cleanupWarned := cl.2,
          warnedMissingBranch := ctx.warnedMissingBranch, configSaved := false,
          usedTempBranch := some ctx.temp, pushedHist := some ctx.pushHist,
          targetBranchUsed := some ctx.targetBranch, workPathUsed := some ctx.workPath,
          integTargetHist := none,
          finalTargetHist := lookupKey workM.branches ctx.targetBranch }
      | (workM, none) =>
        let integHist := lookupKey workM.branches ctx.targetBranch
        let it := syncIntegrate args.force ctx.targetBranch ctx.temp workM
        match it with
        | (workI, some e) =>
          let cl := syncCleanup env.deleteTempOk ctx.temp remote1
          { fs := setKey fs ctx.workPath (.dir workI), remote := cl.1, config := cfg,
            err := some e, pushedTemp := true, reachedIntegration := true,
            cleanupTried := true, cleanupWarned := cl.2,
            warnedMissingBranch := ctx.warnedMissingBranch, configSaved := false,
            usedTempBranch := some ctx.temp, pushedHist := some ctx.pushHist,
            targetBranchUsed := some ctx.targetBranch, workPathUsed := some ctx.workPath,
            integTargetHist := integHist,
            finalTargetHist := lookupKey workI.branches ctx.targetBranch }
        | (workI, none) =>
          let up := syncUpstream env.pushUpstreamOk ctx.targetBranch workI remote1
          match up with
          | (_, some e) =>
            let cl := syncCleanup env.deleteTempOk ctx.temp remote1
            { fs := setKey fs ctx.workPath (.dir workI), remote := cl.1, config := cfg,
              err := some e, pushedTemp := true, reachedIntegration := true,
              cleanupTried := true, cleanupWarned := cl.2,
              warnedMissingBranch := ctx.warnedMissingBranch, configSaved := false,
              usedTempBranch := some ctx.temp, pushedHist := some ctx.pushHist,
              targetBranchUsed := some ctx.targetBranch, workPathUsed := some ctx.workPath,
              integTargetHist := integHist,
              finalTargetHist := lookupKey workI.branches ctx.targetBranch }
          | (remote2, none) =>
            let cl := syncCleanup env.deleteTempOk ctx.temp remote2
            let newEntry : Entry :=
              { work_name := some ctx.workLabel, work_path := ctx.workPath,
                staging_path := some ctx.stagePath, branch := some ctx.targetBranch,
                base_branch := some ctx.targetBranch,
                staging_branch := some ctx.stagingBranch, remote := some ctx.remoteUrl,
                temp_branch := some ctx.temp, last_temp_branch := some ctx.temp }
            { fs := setKey fs ctx.workPath (.dir workI), remote := cl.1,
              config := { projects := setKey cfg.projects args.staging_name newEntry },
              err := none, pushedTemp := true, reachedIntegration := true,
              cleanupTried := true, cleanupWarned := cl.2,
              warnedMissingBranch := ctx.warnedMissingBranch, configSaved := true,
              usedTempBranch := some ctx.temp, pushedHist := some ctx.pushHist,
              targetBranchUsed := some ctx.targetBranch, workPathUsed := some ctx.workPath,
              integTargetHist := integHist,
              finalTargetHist := lookupKey workI.branches ctx.targetBranch }

/-- Model of `init_staging_repo` (stage_sync.py lines 154-173): make the
target directory, `git init` (a fresh repository on an unborn default
branch), add the `origin` remote, fetch the tracked branch, and
`checkout -B <local_branch> origin/<tracked>` (which also sets the
upstream).  Returns the partially built repository alongside the error when
the fetch fails. -/
def init_staging_repo (fetchOk : Bool) (remote_url local_branch : String)
    (remote_branch : Option String) (remote : Remote) : Except (ErrKind × Repo) Repo :=
  let fresh : Repo :=
    { hasGit := true, branches := [], upstreams := [], remoteRefs := [],
      current := some "master", dirty := false, remoteUrl := some remote_url }
  let tracked := remote_branch.getD local_branch
  match lookupKey remote.branches tracked with
  | none => .error (.fetchTempFailed, fresh)
  | some h =>
    if !fetchOk then .error (.fetchTempFailed, fresh) else
    let fetched : Repo := { fresh with remoteRefs := setKey fresh.remoteRefs tracked h }
    .ok { fetched with
      branches := setKey fetched.branches local_branch h,
      upstreams := setKey fetched.upstreams local_branch ("origin/" ++ tracked),
      current := some local_branch }

/-- Observable outcome of one `clone` invocation. -/
structure CloneResult where
  fs : FS
  remote : Remote
  config : Config
  err : Option ErrKind
  removedExisting : Bool
  bootstrapPushed : Bool
  stagePathUsed : Option String
  tempUsed : Option String
deriving DecidableEq, Repr

/-- Model of `clone_project` (stage_sync.py lines 194-266): resolve and
check the source repository, make sure its branch exists on the remote
(pushing it there when missing), resolve the staging target (replacing an
existing directory only under `--force`, and never when it is the source
itself), pick and check the temporary branch, publish the source HEAD to
it, initialize the staging repository from it, and record the mapping. -/
def clone_project (env : Env) (stagingRoot workRoot : String) (fs : FS) (remote : Remote)
    (cfg : Config) (args : CloneArgs) : CloneResult :=
  let base : CloneResult :=
    { fs := fs, remote := remote, config := cfg, err := none, removedExisting := false,
      bootstrapPushed := false, stagePathUsed := none, tempUsed := none }
  match lookupKey fs workRoot with
  | none => { base with err := some .workRootMissing }
  | some _ =>
  match resolve_under_root workRoot args.project with
  | none => { base with err := some .outsideRoot }
  | some source =>
  match lookupKey fs source with
  | none => { base with err := some .sourceMissing }
  | some .file => { base with err := some .sourceNotDir }
  | some (.dir src) =>
  if !src.hasGit then { base with err := some .sourceNotGit } else
  match src.current with
  | none => { base with err := some .detachedSource }
  | some branch =>
  match src.remoteUrl with
  | none => { base with err := some .noRemoteSource }
  | some url =>
  -- ensure_branch_on_remote (lines 125-136): push the branch when absent
  let ebr : FS × Remote × Bool × Option ErrKind :=
    match lookupKey remote.branches branch with
    | some _ => (fs, remote, false, none)
    | none =>
      if env.bootstrapPushOk then
        (setKey fs source
           (.dir { src with upstreams := setKey src.upstreams branch ("origin/" ++ branch) }),
         { branches := setKey remote.branches branch (headHist src) }, true, none)
      else (fs, remote, false, some .bootstrapPushFailed)
  match ebr with
  | (fs1, remote1, bp, eo) =>
  let base1 := { base with fs := fs1, remote := remote1, bootstrapPushed := bp }
  match eo with
  | some e => { base1 with err := some e }
  | none =>
  let targetName := args.as_name.getD (pathName args.project)
  match resolve_under_root stagingRoot targetName with
  | none => { base1 with err := some .outsideRoot }
  | some target =>
  let tgtStep : FS × Bool × Option ErrKind :=
    match lookupKey fs1 target with
    | none => (fs1, false, none)
    | some _ =>
      if !args.force then (fs1, false, some .targetExistsNoForce)
      else if target = source then (fs1, false, some .refuseRemoveSource)
      else (removeKey fs1 target, true, none)
  match tgtStep with
  | (fs2, removed, terr) =>
  let base2 := { base1 with fs := fs2, removedExisting := removed, stagePathUsed := some target }
  match terr with
  | some e => { base2 with err := some e }
  | none =>
  let stageRel := relativeTo stagingRoot target
  let temp := (args.temp_branch).getD (make_temp_branch_name stageRel branch env.now)
  let base3 := { base2 with tempUsed := some temp }
  if (lookupKey remote1.branches temp).isSome then
    { base3 with err := some .tempBranchTaken }
  else if !env.clonePushOk then { base3 with err := some .pushTempFailed }
  else
  let remote2 : Remote := { branches := setKey remote1.branches temp (headHist src) }
  match init_staging_repo env.cloneFetchOk url temp (some temp) remote2 with
  | .error (e, partialRepo) =>
    { base3 with
        fs := setKey fs2 target (.dir partialRepo)
        remote := remote2
        err := some e }
  | .ok repo =>
    let entry : Entry :=
      { work_name := some args.project, work_path := source, staging_path := some target,
        branch := none, base_branch := some branch, staging_branch := some temp,
        remote := some url, temp_branch := some temp, last_temp_branch := none }
    { base3 with
        fs := setKey fs2 target (.dir repo)
        remote := remote2
        config := { projects := setKey cfg.projects stageRel entry } }

/-! ## Helper lemmas -/

theorem lookupKey_setKey_self {α : Type} (l : List (String × α)) (k : String) (v : α) :
    lookupKey (setKey l k v) k = some v := by
  induction l with
  | nil => simp [setKey, lookupKey]
  | cons p t ih =>
    by_cases h : p.1 = k
    · simp [setKey, h, lookupKey]
    · simp [setKey, h, lookupKey, ih]

theorem lookupKey_setKey_ne {α : Type} (l : List (String × α)) (k k' : String) (v : α)
    (h : k' ≠ k) : lookupKey (setKey l k v) k' = lookupKey l k' := by
  have hk : ¬ k = k' := fun hh => h hh.symm
  induction l with
  | nil =>
    simp only [setKey, lookupKey]
    rw [if_neg hk]
  | cons p t ih =>
    by_cases hp : p.1 = k
    · subst hp
      simp only [setKey, if_pos rfl, lookupKey]
      rw [if_neg hk, if_neg hk]
    · simp only [setKey, hp, if_false, lookupKey]
      by_cases hp' : p.1 = k' <;> simp [hp', ih]

theorem stripDashes_eq (l : List Char) :
    stripDashes l =
      List.rdropWhile (fun c => decide (c = '-')) (l.dropWhile (fun c => decide (c = '-'))) :=
  rfl

theorem mem_stripDashes {c : Char} {l : List Char} (h : c ∈ stripDashes l) : c ∈ l := by
  rw [stripDashes_eq] at h
  have h1 : c ∈ l.dropWhile (fun c => decide (c = '-')) :=
    (List.rdropWhile_prefix _ _).sublist.subset h
  exact (List.dropWhile_sublist _).subset h1

theorem stripDashes_head_ne (l : List Char) : (stripDashes l).head? ≠ some '-' := by
  intro h
  rw [stripDashes_eq] at h
  obtain ⟨t, ht⟩ :=
    List.rdropWhile_prefix (fun c : Char => decide (c = '-'))
      (l.dropWhile (fun c => decide (c = '-')))
  have hd : (l.dropWhile (fun c : Char => decide (c = '-'))).head? = some '-' := by
    rw [← ht, List.head?_append, h]
    rfl
  have hnot := List.head?_dropWhile_not (fun c : Char => decide (c = '-')) l
  rw [hd] at hnot
  simp at hnot

theorem stripDashes_last_ne (l : List Char) : (stripDashes l).getLast? ≠ some '-' := by
  intro h
  rw [stripDashes_eq, List.rdropWhile, List.getLast?_reverse] at h
  have hnot :=
    List.head?_dropWhile_not (fun c : Char => decide (c = '-'))
      (l.dropWhile (fun c => decide (c = '-'))).reverse
  rw [h] at hnot
  simp at hnot

theorem branchSafeChar_dash : branchSafeChar '-' = true := by decide

theorem mapped_safe (s : String) {c : Char}
    (h : c ∈ s.data.map (fun c => if branchSafeChar c then c else '-')) :
    branchSafeChar c = true := by
  obtain ⟨a, _, rfl⟩ := List.mem_map.mp h
  by_cases ha : branchSafeChar a <;> simp [ha, branchSafeChar_dash]

theorem sanitize_chars_safe (comp : String) :
    ∀ c ∈ (sanitize_for_branch comp).data, branchSafeChar c = true := by
  intro c hc
  simp only [sanitize_for_branch] at hc
  by_cases he :
      (stripDashes (comp.data.map (fun c => if branchSafeChar c then c else '-'))).isEmpty
        = true
  · rw [if_pos he] at hc
    have hall : ∀ x ∈ "project".data, branchSafeChar x = true := by decide
    exact hall c hc
  · rw [if_neg he] at hc
    exact mapped_safe comp (mem_stripDashes hc)

theorem sanitize_ne_empty (comp : String) : sanitize_for_branch comp ≠ "" := by
  simp only [sanitize_for_branch]
  by_cases he :
      (stripDashes (comp.data.map (fun c => if branchSafeChar c then c else '-'))).isEmpty
        = true
  · rw [if_pos he]
    decide
  · rw [if_neg he]
    intro h
    apply he
    have hd : stripDashes (comp.data.map (fun c => if branchSafeChar c then c else '-'))
        = [] := congrArg String.data h
    rw [hd]
    rfl

theorem sanitize_head_ne (comp : String) :
    (sanitize_for_branch comp).data.head? ≠ some '-' := by
  simp only [sanitize_for_branch]
  by_cases he :
      (stripDashes (comp.data.map (fun c => if branchSafeChar c then c else '-'))).isEmpty
        = true
  · rw [if_pos he]
    decide
  · rw [if_neg he]
    exact stripDashes_head_ne _

theorem sanitize_last_ne (comp : String) :
    (sanitize_for_branch comp).data.getLast? ≠ some '-' := by
  simp only [sanitize_for_branch]
  by_cases he :
      (stripDashes (comp.data.map (fun c => if branchSafeChar c then c else '-'))).isEmpty
        = true
  · rw [if_pos he]
    decide
  · rw [if_neg he]
    exact stripDashes_last_ne _

theorem sanitize_sourced (comp : String) :
    ∀ c ∈ (sanitize_for_branch comp).data,
      c ∈ comp.data ∨ c = '-' ∨ sanitize_for_branch comp = "project" := by
  intro c hc
  simp only [sanitize_for_branch] at hc
  by_cases he :
      (stripDashes (comp.data.map (fun c => if branchSafeChar c then c else '-'))).isEmpty
        = true
  · right; right
    simp only [sanitize_for_branch]
    rw [if_pos he]
  · rw [if_neg he] at hc
    obtain ⟨a, ha, hfa⟩ := List.mem_map.mp (mem_stripDashes hc)
    by_cases hsa : branchSafeChar a = true
    · left
      simp only [hsa, if_true] at hfa
      exact hfa ▸ ha
    · right; left
      simp only [hsa, if_false] at hfa
      exact hfa.symm

theorem sanitize_id (comp : String) (h1 : ∀ c ∈ comp.data, branchSafeChar c = true)
    (h2 : comp.data.head? ≠ some '-') (h3 : comp.data.getLast? ≠ some '-')
    (h4 : comp ≠ "") : sanitize_for_branch comp = comp := by
  have hne : comp.data ≠ [] := by
    intro h
    apply h4
    cases comp with
    | mk d => simp at h; rw [h]
  have hmap : comp.data.map (fun c => if branchSafeChar c then c else '-') = comp.data := by
    have : ∀ a ∈ comp.data, (if branchSafeChar a then a else '-') = a := by
      intro a ha
      simp [h1 a ha]
    calc comp.data.map (fun c => if branchSafeChar c then c else '-')
        = comp.data.map id := List.map_congr_left this
      _ = comp.data := List.map_id _
  have hdw : comp.data.dropWhile (fun c => decide (c = '-')) = comp.data := by
    cases hcd : comp.data with
    | nil => simp
    | cons x xs =>
      have hx : x ≠ '-' := by
        intro hx
        apply h2
        rw [hcd, hx]
        rfl
      rw [List.dropWhile_cons_of_neg]
      simp [hx]
  have hrdw :
      List.rdropWhile (fun c => decide (c = '-')) comp.data = comp.data := by
    rw [List.rdropWhile_eq_self_iff]
    intro hl hp
    apply h3
    rw [List.getLast?_eq_getLast comp.data hl]
    simp at hp
    rw [hp]
  have hstrip : stripDashes comp.data = comp.data := by
    rw [stripDashes_eq, hdw, hrdw]
  simp only [sanitize_for_branch]
  rw [hmap, hstrip]
  rw [if_neg (by simpa using hne)]

theorem digitChar_isDigit {m : Nat} (h : m < 10) : (Nat.digitChar m).isDigit = true := by
  interval_cases m <;> decide

theorem isDigit_safe {c : Char} (h : c.isDigit = true) : branchSafeChar c = true := by
  simp [branchSafeChar, Char.isAlphanum, h]

theorem toDigitsCore_digits :
    ∀ (fuel n : Nat) (ds : List Char), (∀ c ∈ ds, c.isDigit = true) →
      ∀ c ∈ Nat.toDigitsCore 10 fuel n ds, c.isDigit = true
  | 0, _, _, hds => by
    intro c hc
    rw [Nat.toDigitsCore] at hc
    exact hds c hc
  | fuel + 1, n, ds, hds => by
    intro c hc
    rw [Nat.toDigitsCore] at hc
    have hds' : ∀ c ∈ Nat.digitChar (n % 10) :: ds, c.isDigit = true := by
      intro c hc
      rcases List.mem_cons.mp hc with rfl | hc
      · exact digitChar_isDigit (Nat.mod_lt _ (by decide))
      · exact hds c hc
    by_cases h0 : n / 10 = 0
    · simp only [h0, if_true] at hc
      exact hds' c hc
    · simp only [h0, if_false] at hc
      exact toDigitsCore_digits fuel (n / 10) _ hds' c hc

theorem toDigitsCore_ne_nil :
    ∀ (fuel n : Nat) (ds : List Char), ds ≠ [] → Nat.toDigitsCore 10 fuel n ds ≠ []
  | 0, _, _, h => by
    rw [Nat.toDigitsCore]
    exact h
  | fuel + 1, n, ds, h => by
    rw [Nat.toDigitsCore]
    by_cases h0 : n / 10 = 0
    · simp [h0]
    · simp only [h0, if_false]
      exact toDigitsCore_ne_nil fuel (n / 10) _ (by simp)

theorem repr_data_digits (n : Nat) : ∀ c ∈ (Nat.repr n).data, c.isDigit = true := by
  intro c hc
  exact toDigitsCore_digits (n + 1) n [] (by simp) c hc

theorem repr_data_ne_nil (n : Nat) : (Nat.repr n).data ≠ [] := by
  show Nat.toDigitsCore 10 (n + 1) n [] ≠ []
  rw [Nat.toDigitsCore]
  by_cases h0 : n / 10 = 0
  · simp [h0]
  · simp only [h0, if_false]
    exact toDigitsCore_ne_nil n (n / 10) _ (by simp)

theorem make_temp_chars (sid b : String) (t : Nat) :
    ∀ c ∈ (make_temp_branch_name sid b t).data, branchSafeChar c = true ∨ c = '/' := by
  simp only [make_temp_branch_name, String.data_append, List.forall_mem_append]
  refine ⟨⟨⟨⟨⟨⟨?_, ?_⟩, ?_⟩, ?_⟩, ?_⟩, ?_⟩, ?_⟩
  · intro c hc
    exact Or.inl ((by decide : ∀ x ∈ tempBranchRoot.data, branchSafeChar x = true) c hc)
  · intro c hc
    exact Or.inr ((by decide : ∀ x ∈ ['/'], x = '/') c hc)
  · intro c hc
    exact Or.inl (sanitize_chars_safe sid c hc)
  · intro c hc
    exact Or.inl ((by decide : ∀ x ∈ ['-'], branchSafeChar x = true) c hc)
  · intro c hc
    exact Or.inl (sanitize_chars_safe b c hc)
  · intro c hc
    exact Or.inl ((by decide : ∀ x ∈ ['-'], branchSafeChar x = true) c hc)
  · intro c hc
    exact Or.inl (isDigit_safe (repr_data_digits t c hc))

theorem make_temp_head (sid b : String) (t : Nat) :
    (make_temp_branch_name sid b t).data.head? = some 's' := by
  have h : tempBranchRoot.data.head? = some 's' := by decide
  simp [make_temp_branch_name, String.data_append, List.head?_append, h]

theorem make_temp_last (sid b : String) (t : Nat) :
    (make_temp_branch_name sid b t).data.getLast? ≠ some '-' := by
  have hne := repr_data_ne_nil t
  have hlast := List.getLast?_eq_getLast (Nat.repr t).data hne
  have hdig : ((Nat.repr t).data.getLast hne).isDigit = true :=
    repr_data_digits t _ (List.getLast_mem hne)
  simp only [make_temp_branch_name, String.data_append, List.getLast?_append]
  rw [hlast]
  intro h
  have h2 : (Nat.repr t).data.getLast hne = '-' := by
    simpa using h
  rw [h2] at hdig
  exact absurd hdig (by decide)

theorem make_temp_ne_nil (sid b : String) (t : Nat) :
    (make_temp_branch_name sid b t).data ≠ [] := by
  intro h
  have hh := make_temp_head sid b t
  rw [h] at hh
  simp at hh

/-- C7: the claim asserts that every name returned by the temporary-branch
generator contains only characters from the class `[A-Za-z0-9._-]`.
Refuted: every generated name contains the path separator `/` between the
fixed first component and the sanitized part, and `/` is outside that
class. -/
theorem C7_counterexample :
    '/' ∈ (make_temp_branch_name "a" "b" 0).data ∧ branchSafeChar '/' = false := by
  decide

/-- C7 (amended): every character of a generated temporary-branch name is
alphanumeric, one of `-`, `_`, `.`, or the separator `/`; the name is
non-empty, starts with `s` (so never with `-`) and never ends with `-`.
Each sanitized component contains only safe characters, is non-empty,
neither starts nor ends with `-`, draws every character from the input or
the replacement `-` (unless the fixed placeholder is used), passes clean
inputs through unchanged, and the empty component becomes `"project"`. -/
theorem C7_amended (sid b : String) (t : Nat) (comp : String) :
    (∀ c ∈ (make_temp_branch_name sid b t).data, branchSafeChar c = true ∨ c = '/') ∧
    (make_temp_branch_name sid b t).data ≠ [] ∧
    (make_temp_branch_name sid b t).data.head? = some 's' ∧
    (make_temp_branch_name sid b t).data.getLast? ≠ some '-' ∧
    (∀ c ∈ (sanitize_for_branch comp).data, branchSafeChar c = true) ∧
    sanitize_for_branch comp ≠ "" ∧
    (sanitize_for_branch comp).data.head? ≠ some '-' ∧
    (sanitize_for_branch comp).data.getLast? ≠ some '-' ∧
    (∀ c ∈ (sanitize_for_branch comp).data,
        c ∈ comp.data ∨ c = '-' ∨ sanitize_for_branch comp = "project") ∧
    ((∀ c ∈ comp.data, branchSafeChar c = true) → comp.data.head? ≠ some '-' →
      comp.data.getLast? ≠ some '-' → comp ≠ "" → sanitize_for_branch comp = comp) ∧
    sanitize_for_branch "" = "project" :=
  ⟨make_temp_chars sid b t, make_temp_ne_nil sid b t, make_temp_head sid b t,
   make_temp_last sid b t, sanitize_chars_safe comp, sanitize_ne_empty comp,
   sanitize_head_ne comp, sanitize_last_ne comp, sanitize_sourced comp,
   fun h1 h2 h3 h4 => sanitize_id comp h1 h2 h3 h4, by decide⟩

/-- Witness for `C7_amended` at concrete inputs: the clean component
`"abc"` passes through unchanged and the empty component becomes the
placeholder. -/
theorem C7_witness :
    sanitize_for_branch "abc" = "abc" ∧ sanitize_for_branch "" = "project" :=
  ⟨(C7_amended "x" "y" 3 "abc").2.2.2.2.2.2.2.2.2.1 (by decide) (by decide) (by decide)
      (by decide),
   (C7_amended "x" "y" 3 "abc").2.2.2.2.2.2.2.2.2.2⟩

/-! ## Concrete scenarios used by counterexamples and witnesses -/

/-- Fault-free environment with clock readings 7 and 8, used by the C1
scenario. -/
def c1Env : Env := ⟨7, 8, true, true, true, true, true, true, true, true⟩

/-- C1 staging repository: branch `main` at commit history `[0]`. -/
def c1Stage : Repo :=
  { hasGit := true, branches := [("main", [0])], upstreams := [], remoteRefs := [],
    current := some "main", dirty := false, remoteUrl := some "u" }

/-- C1 work repository: branch `main` strictly ahead at `[1, 0]`. -/
def c1Work : Repo :=
  { hasGit := true, branches := [("main", [1, 0])], upstreams := [], remoteRefs := [],
    current := some "main", dirty := false, remoteUrl := some "u" }

/-- C1 sync-back arguments: plain invocation, no `--force`. -/
def c1Args : SyncArgs :=
  { staging_name := "projx", work_name := none, branch := none, temp_branch := none,
    auto_checkout := false, force := false, allow_dirty_stage := false,
    allow_dirty_work := false }

/-- C1 run: work ahead of staging, default (fast-forward-only) mode. -/
def c1Run : SyncResult :=
  sync_back c1Env "/s" "/w" [("/s/projx", .dir c1Stage), ("/w/projx", .dir c1Work)]
    { branches := [("main", [1, 0])] } { projects := [] } c1Args

/-- C1 run with `--force` on the same state (used by the witness). -/
def c1ForceRun : SyncResult :=
  sync_back c1Env "/s" "/w" [("/s/projx", .dir c1Stage), ("/w/projx", .dir c1Work)]
    { branches := [("main", [1, 0])] } { projects := [] } { c1Args with force := true }

/-- Fault-free environment for the C4 scenario. -/
def c4Env : Env := ⟨7, 8, true, true, true, true, true, true, true, true⟩

/-- C4 registry entry whose recorded remote url `X` differs from the url
`Y` both repositories actually report. -/
def c4Ent : Entry :=
  { work_name := some "projx", work_path := "/w/projx", staging_path := some "/s/projx",
    branch := some "main", base_branch := some "main", staging_branch := some "main",
    remote := some "X", temp_branch := none, last_temp_branch := none }

/-- C4 staging repository on `main` at `[2, 0]`, remote url `Y`. -/
def c4Stage : Repo :=
  { hasGit := true, branches := [("main", [2, 0])], upstreams := [], remoteRefs := [],
    current := some "main", dirty := false, remoteUrl := some "Y" }

/-- C4 work repository on `main` at `[0]`, remote url `Y`. -/
def c4Work : Repo :=
  { hasGit := true, branches := [("main", [0])], upstreams := [], remoteRefs := [],
    current := some "main", dirty := false, remoteUrl := some "Y" }

/-- C4 sync-back arguments. -/
def c4Args : SyncArgs :=
  { staging_name := "projx", work_name := none, branch := none, temp_branch := none,
    auto_checkout := false, force := false, allow_dirty_stage := false,
    allow_dirty_work := false }

/-- C4 run: registry-recorded url disagrees with both repositories. -/
def c4Run : SyncResult :=
  sync_back c4Env "/s" "/w" [("/s/projx", .dir c4Stage), ("/w/projx", .dir c4Work)]
    { branches := [("main", [0])] } { projects := [("projx", c4Ent)] } c4Args

/-- Fault-free environment for the C5 scenario. -/
def c5Env : Env := ⟨7, 8, true, true, true, true, true, true, true, true⟩

/-- C5 registry entry recording temporary branch `t`. -/
def c5Ent : Entry :=
  { work_name := some "projx", work_path := "/w/projx", staging_path := some "/s/projx",
    branch := some "main", base_branch := some "main", staging_branch := some "main",
    remote := some "u", temp_branch := some "t", last_temp_branch := some "t" }

/-- C5 staging repository on `main` at `[4, 0]`. -/
def c5Stage : Repo :=
  { hasGit := true, branches := [("main", [4, 0])], upstreams := [], remoteRefs := [],
    current := some "main", dirty := false, remoteUrl := some "u" }

/-- C5 work repository on `main` at `[0]`. -/
def c5Work : Repo :=
  { hasGit := true, branches := [("main", [0])], upstreams := [], remoteRefs := [],
    current := some "main", dirty := false, remoteUrl := some "u" }

/-- C5 remote: the recorded temporary branch `t` already exists on it. -/
def c5Remote : Remote := { branches := [("main", [0]), ("t", [0])] }

/-- C5 sync-back arguments: no explicit `--temp-branch`. -/
def c5Args : SyncArgs :=
  { staging_name := "projx", work_name := none, branch := none, temp_branch := none,
    auto_checkout := false, force := false, allow_dirty_stage := false,
    allow_dirty_work := false }

/-- C5 run: the recorded temporary branch is reused although it exists on
the remote. -/
def c5Run : SyncResult :=
  sync_back c5Env "/s" "/w" [("/s/projx", .dir c5Stage), ("/w/projx", .dir c5Work)]
    c5Remote { projects := [("projx", c5Ent)] } c5Args

/-- Fault-free environment for the C8 clone scenario. -/
def c8Env : Env := ⟨7, 8, true, true, true, true, true, true, true, true⟩

/-- C8 source repository: branch `main` at `[0]`. -/
def c8Src : Repo :=
  { hasGit := true, branches := [("main", [0])], upstreams := [], remoteRefs := [],
    current := some "main", dirty := false, remoteUrl := some "u" }

/-- C8 work-root directory node: a plain directory, not a repository. -/
def c8RootDir : Repo :=
  { hasGit := false, branches := [], upstreams := [], remoteRefs := [],
    current := none, dirty := false, remoteUrl := none }

/-- C8 filesystem: the work root and the source project. -/
def c8FS : FS := [("/w", .dir c8RootDir), ("/w/projx", .dir c8Src)]

/-- C8 clone arguments. -/
def c8Args : CloneArgs :=
  { project := "projx", as_name := none, temp_branch := none, force := false }

/-- C8 run: a plain clone of a project whose branch is `main`. -/
def c8Run : CloneResult :=
  clone_project c8Env "/s" "/w" c8FS { branches := [("main", [0])] } { projects := [] }
    c8Args

/-- The staging repository the C8 clone actually produces: its only local
branch is the temporary branch, not `main`. -/
def c8ResultRepo : Repo :=
  { hasGit := true, branches := [("staging-sync/projx-main-7", [0])],
    upstreams := [("staging-sync/projx-main-7", "origin/staging-sync/projx-main-7")],
    remoteRefs := [("staging-sync/projx-main-7", [0])],
    current := some "staging-sync/projx-main-7", dirty := false, remoteUrl := some "u" }

/-- Fault-free environment for the C9 scenario. -/
def c9Env : Env := ⟨7, 8, true, true, true, true, true, true, true, true⟩

/-- C9 staging repository on `main` at `[7, 5]`. -/
def c9Stage : Repo :=
  { hasGit := true, branches := [("main", [7, 5])], upstreams := [], remoteRefs := [],
    current := some "main", dirty := false, remoteUrl := some "u" }

/-- C9 work repository: no local `main`, currently on `dev`. -/
def c9Work : Repo :=
  { hasGit := true, branches := [("dev", [3])], upstreams := [], remoteRefs := [],
    current := some "dev", dirty := false, remoteUrl := some "u" }

/-- C9 sync-back arguments. -/
def c9Args : SyncArgs :=
  { staging_name := "projx", work_name := none, branch := none, temp_branch := none,
    auto_checkout := false, force := false, allow_dirty_stage := false,
    allow_dirty_work := false }

/-- C9 run: the remote's `main` is at `[9]`, diverged from the staging
commit `[7, 5]` that was published on the temporary branch. -/
def c9Run : SyncResult :=
  sync_back c9Env "/s" "/w" [("/s/projx", .dir c9Stage), ("/w/projx", .dir c9Work)]
    { branches := [("main", [9])] } { projects := [] } c9Args

/-- The work repository state the C9 run leaves behind: local `main` was
created from and tracks `origin/main` at `[9]`, not the temporary branch's
commit. -/
def c9FinalWork : Repo :=
  { hasGit := true, branches := [("dev", [3]), ("main", [9])],
    upstreams := [("main", "origin/main")],
    remoteRefs := [("staging-sync/projx-main-7", [7, 5]), ("main", [9])],
    current := some "main", dirty := false, remoteUrl := some "u" }

/-! ## Counterexample theorems -/

/-- C1: the claim asserts that without `--force`, whenever the work branch
has commits the staging history lacks, the operation fails with a
fast-forward error and leaves the tip unchanged.  Refuted: in this run the
work branch `[1, 0]` is strictly ahead of the published staging commit
`[0]` (so the work branch has a commit the staging history lacks, and the
work history is not a suffix of the published one), the integration step is
reached without `--force`, yet `git merge --ff-only` reports
already-up-to-date and the whole operation succeeds with no error. -/
theorem C1_counterexample :
    c1Run.reachedIntegration = true ∧ c1Args.force = false ∧
    c1Run.pushedHist = some [0] ∧ c1Run.integTargetHist = some [1, 0] ∧
    List.isSuffixOf [1, 0] [0] = false ∧
    c1Run.err = none ∧ c1Run.finalTargetHist = some [1, 0] := by
  decide

/-- C4: the claim asserts that the remote url recorded in the registry must
equal the urls read from both repositories, any mismatch aborting the
operation.  Refuted: here the registry records url `X` while both
repositories report `Y`; the sync-back succeeds anyway, and the stored
value is silently overwritten with `Y` — the recorded url is never
consulted. -/
theorem C4_counterexample :
    c4Ent.remote = some "X" ∧ c4Stage.remoteUrl = some "Y" ∧
    c4Work.remoteUrl = some "Y" ∧ c4Run.err = none ∧
    (lookupKey c4Run.config.projects "projx").map (·.remote) = some (some "Y") := by
  decide

/-- C5: the claim asserts that before the chosen temporary-branch name is
used, its absence on the remote is checked.  Refuted: with a recorded
temporary branch `t` and no explicit override, `t` is reused although it
already exists on the remote — no check, no failure, no regeneration. -/
theorem C5_counterexample :
    (lookupKey c5Remote.branches "t").isSome = true ∧
    c5Args.temp_branch = none ∧ c5Ent.temp_branch = some "t" ∧
    c5Run.usedTempBranch = some "t" ∧ c5Run.pushedTemp = true ∧
    c5Run.err = none := by
  decide

/-- C8: the claim asserts that the local branch checked out in the staging
repository has the same base name as the source repository's branch (clone
a work repo on `main`, get a staging repo on `main`).  Refuted: the source
is on `main`, the clone succeeds, but the staging repository's checked-out
branch is the temporary branch name, and no local `main` exists in it. -/
theorem C8_counterexample :
    c8Src.current = some "main" ∧ c8Run.err = none ∧
    lookupKey c8Run.fs "/s/projx" = some (.dir c8ResultRepo) ∧
    c8ResultRepo.current = some "staging-sync/projx-main-7" ∧
    lookupKey c8ResultRepo.branches "main" = none := by
  decide

/-- C9: the claim asserts that a target branch missing locally in the work
repository is created directly tracking the temporary branch's fetched
commit.  Refuted: the branch is created from `origin/<target>` (here `[9]`)
and tracks `origin/main`, not the temporary branch's commit `[7, 5]`; the
subsequent fast-forward-only merge then fails on the divergence, which
could not happen had the branch been created at the temporary commit. -/
theorem C9_counterexample :
    lookupKey c9Work.branches "main" = none ∧
    c9Run.pushedHist = some [7, 5] ∧
    c9Run.err = some .ffOnlyFailed ∧
    c9Run.finalTargetHist = some [9] ∧
    lookupKey c9Run.fs "/w/projx" = some (.dir c9FinalWork) ∧
    lookupKey c9FinalWork.upstreams "main" = some "origin/main" ∧
    lookupKey c9FinalWork.branches "main" = some [9] := by
  decide

/-! ## Claim theorems: cleanup and cleanliness gates -/

/-- C2: once the staging commit has been pushed to the temporary remote
branch, deletion of that branch is attempted on every exit path of the
protected section (whatever fetch, branch creation, checkout, merge/reset
or upstream push did), and a failure of the deletion is only a warning: the
operation's error outcome, final registry and final filesystem are
identical whether the deletion succeeds or fails. -/
theorem C2_theorem (env : Env) (sr wr : String) (fs : FS) (remote : Remote) (cfg : Config)
    (args : SyncArgs) :
    (sync_back { env with deleteTempOk := true } sr wr fs remote cfg args).err
      = (sync_back { env with deleteTempOk := false } sr wr fs remote cfg args).err ∧
    (sync_back { env with deleteTempOk := true } sr wr fs remote cfg args).config
      = (sync_back { env with deleteTempOk := false } sr wr fs remote cfg args).config ∧
    (sync_back { env with deleteTempOk := true } sr wr fs remote cfg args).fs
      = (sync_back { env with deleteTempOk := false } sr wr fs remote cfg args).fs ∧
    ((sync_back env sr wr fs remote cfg args).pushedTemp = true →
      (sync_back env sr wr fs remote cfg args).cleanupTried = true) ∧
    ((sync_back { env with deleteTempOk := false } sr wr fs remote cfg args).pushedTemp
        = true →
      (sync_back { env with deleteTempOk := false } sr wr fs remote cfg args).cleanupWarned
        = true) := by
  unfold sync_back
  dsimp only
  cases hg : syncGates env.now env.now2 sr wr fs remote cfg args with
  | error e => simp [hg]
  | ok ctx =>
    simp only [hg]
    cases hp : syncPush env.pushTempOk remote ctx.temp ctx.pushHist with
    | error e => simp [hp]
    | ok remote1 =>
      simp only [hp]
      rcases hm : syncMaterialize env.fetchTempOk env.fetchTargetOk args.auto_checkout
          ctx remote1 with ⟨workM, eM⟩
      cases eM with
      | some e => simp [hm, syncCleanup]
      | none =>
        simp only [hm]
        rcases hi : syncIntegrate args.force ctx.targetBranch ctx.temp workM with ⟨workI, eI⟩
        cases eI with
        | some e => simp [hi, syncCleanup]
        | none =>
          simp only [hi]
          rcases hu : syncUpstream env.pushUpstreamOk ctx.targetBranch workI remote1
              with ⟨remote2, eU⟩
          cases eU with
          | some e => simp [hu, syncCleanup]
          | none => simp [hu, syncCleanup]

/-- Witness for `C2_theorem` at the concrete C1 scenario, where the push
did happen: cleanup is attempted. -/
theorem C2_witness : c1Run.cleanupTried = true :=
  (C2_theorem c1Env "/s" "/w" [("/s/projx", .dir c1Stage), ("/w/projx", .dir c1Work)]
    { branches := [("main", [1, 0])] } { projects := [] } c1Args).2.2.2.1 (by decide)

/-- C3: if the staging repository is dirty without `--allow-dirty-stage`,
or the work repository is dirty without `--allow-dirty-work`, the sync-back
fails with a clean-tree error and mutates nothing: filesystem, remote and
registry are unchanged and no push is performed. -/
theorem C3_theorem (env : Env) (sr wr : String) (fs : FS) (remote : Remote) (cfg : Config)
    (args : SyncArgs) (sp : String) (stage work : Repo) (wp wl : String)
    (hsp : resolve_under_root sr args.staging_name = some sp)
    (hfs : lookupKey fs sp = some (.dir stage))
    (hsg : stage.hasGit = true)
    (hw : resolveWorkInfo wr (lookupKey cfg.projects args.staging_name) args = .ok (wp, wl))
    (hwfs : lookupKey fs wp = some (.dir work))
    (hwg : work.hasGit = true)
    (hdirty : (args.allow_dirty_stage = false ∧ stage.dirty = true) ∨
              (args.allow_dirty_work = false ∧ work.dirty = true)) :
    ((sync_back env sr wr fs remote cfg args).err = some .dirtyStage ∨
     (sync_back env sr wr fs remote cfg args).err = some .dirtyWork) ∧
    (sync_back env sr wr fs remote cfg args).fs = fs ∧
    (sync_back env sr wr fs remote cfg args).remote = remote ∧
    (sync_back env sr wr fs remote cfg args).config = cfg ∧
    (sync_back env sr wr fs remote cfg args).pushedTemp = false := by
  have hgate :
      syncGates env.now env.now2 sr wr fs remote cfg args = .error .dirtyStage ∨
      syncGates env.now env.now2 sr wr fs remote cfg args = .error .dirtyWork := by
    unfold syncGates
    rw [hsp]
    simp only [hfs, hsg, hw, hwfs, hwg, Bool.not_true, Bool.false_eq_true, if_false]
    by_cases hfirst : (!args.allow_dirty_stage && stage.dirty) = true
    · left
      simp [hfirst]
    · right
      simp only [Bool.not_eq_true] at hfirst
      simp only [hfirst, Bool.false_eq_true, if_false]
      rcases hdirty with ⟨ha, hd⟩ | ⟨ha, hd⟩
      · exfalso
        rw [ha, hd] at hfirst
        simp at hfirst
      · simp [ha, hd]
  rcases hgate with h | h
  · unfold sync_back
    simp [h]
  · unfold sync_back
    simp [h]

/-- C3 concrete scenario: the staging repository has uncommitted changes. -/
def c3Stage : Repo :=
  { hasGit := true, branches := [("main", [0])], upstreams := [], remoteRefs := [],
    current := some "main", dirty := true, remoteUrl := some "u" }

/-- C3 concrete scenario: a clean work repository. -/
def c3Work : Repo :=
  { hasGit := true, branches := [("main", [0])], upstreams := [], remoteRefs := [],
    current := some "main", dirty := false, remoteUrl := some "u" }

/-- Witness for `C3_theorem`: a dirty staging tree without
`--allow-dirty-stage` aborts with a clean-tree error and no mutation. -/
theorem C3_witness :
    ((sync_back c1Env "/s" "/w" [("/s/projx", .dir c3Stage), ("/w/projx", .dir c3Work)]
        { branches := [("main", [0])] } { projects := [] } c1Args).err = some .dirtyStage ∨
     (sync_back c1Env "/s" "/w" [("/s/projx", .dir c3Stage), ("/w/projx", .dir c3Work)]
        { branches := [("main", [0])] } { projects := [] } c1Args).err = some .dirtyWork) ∧
    (sync_back c1Env "/s" "/w" [("/s/projx", .dir c3Stage), ("/w/projx", .dir c3Work)]
        { branches := [("main", [0])] } { projects := [] } c1Args).fs
      = [("/s/projx", .dir c3Stage), ("/w/projx", .dir c3Work)] ∧
    (sync_back c1Env "/s" "/w" [("/s/projx", .dir c3Stage), ("/w/projx", .dir c3Work)]
        { branches := [("main", [0])] } { projects := [] } c1Args).remote
      = { branches := [("main", [0])] } ∧
    (sync_back c1Env "/s" "/w" [("/s/projx", .dir c3Stage), ("/w/projx", .dir c3Work)]
        { branches := [("main", [0])] } { projects := [] } c1Args).config
      = { projects := [] } ∧
    (sync_back c1Env "/s" "/w" [("/s/projx", .dir c3Stage), ("/w/projx", .dir c3Work)]
        { branches := [("main", [0])] } { projects := [] } c1Args).pushedTemp = false :=
  C3_theorem c1Env "/s" "/w" _ _ _ c1Args "/s/projx" c3Stage c3Work "/w/projx" "projx"
    (by decide) (by decide) (by decide) (by rfl) (by decide) (by decide)
    (Or.inl ⟨by decide, by decide⟩)

/-- Full characterization of a successful gate phase: under hypotheses
pinning every gate, `syncGates` returns the explicit context record. -/
theorem syncGates_ok (now now2 : Nat) (sr wr : String) (fs : FS) (remote : Remote)
    (cfg : Config) (args : SyncArgs) (sp wp wl : String) (stage work : Repo)
    (sb u tmp : String)
    (hsp : resolve_under_root sr args.staging_name = some sp)
    (hfs : lookupKey fs sp = some (.dir stage))
    (hsg : stage.hasGit = true)
    (hw : resolveWorkInfo wr (lookupKey cfg.projects args.staging_name) args = .ok (wp, wl))
    (hwfs : lookupKey fs wp = some (.dir work))
    (hwg : work.hasGit = true)
    (hds : (!args.allow_dirty_stage && stage.dirty) = false)
    (hdw : (!args.allow_dirty_work && work.dirty) = false)
    (hcur : stage.current = some sb)
    (hsu : stage.remoteUrl = some u)
    (hwu : work.remoteUrl = some u)
    (hsel : selectTempBranch args.temp_branch
        ((lookupKey cfg.projects args.staging_name).bind (·.temp_branch))
        (make_temp_branch_name args.staging_name sb now)
        (make_temp_branch_name args.staging_name sb now2) remote = .ok tmp) :
    syncGates now now2 sr wr fs remote cfg args = .ok
      { stagePath := sp, workPath := wp, workLabel := wl, stage := stage, work := work,
        stagingBranch := sb,
        targetBranch := args.branch.getD
          (((lookupKey cfg.projects args.staging_name).bind (·.base_branch)).getD sb),
        temp := tmp, remoteUrl := u, pushHist := headHist stage,
        warnedMissingBranch :=
          match args.branch with
          | some b => b != sb && (lookupKey stage.branches b).isNone
          | none => false } := by
  unfold syncGates
  rw [hsp]
  simp only [hfs, hsg, hw, hwfs, hwg, hds, hdw, hcur, hsu, hwu, Bool.not_true,
    Bool.false_eq_true, if_false, bne_self_eq_false, hsel]

/-- A successful publication stores the pushed history under the temporary
branch on the remote. -/
theorem syncPush_lookup (pushOk : Bool) (remote : Remote) (temp : String) (ph : Hist)
    (remote1 : Remote) (h : syncPush pushOk remote temp ph = .ok remote1) :
    lookupKey remote1.branches temp = some ph := by
  unfold syncPush at h
  cases htl : lookupKey remote.branches temp with
  | none =>
    rw [htl] at h
    dsimp only at h
    split at h
    · injection h with h1
      rw [← h1]
      exact lookupKey_setKey_self _ _ _
    · exact Except.noConfusion h
  | some hh =>
    rw [htl] at h
    dsimp only at h
    split at h
    · injection h with h1
      rw [← h1]
      exact lookupKey_setKey_self _ _ _
    · exact Except.noConfusion h

/-- A successful materialization leaves the work repository's
remote-tracking ref for the temporary branch at the value fetched from the
remote. -/
theorem syncMaterialize_remoteRefs (ftOk ftgOk ac : Bool) (ctx : Ctx) (remote : Remote)
    (workM : Repo) (h : syncMaterialize ftOk ftgOk ac ctx remote = (workM, none)) :
    lookupKey workM.remoteRefs ctx.temp = lookupKey remote.branches ctx.temp := by
  unfold syncMaterialize at h
  cases htl : lookupKey remote.branches ctx.temp with
  | none =>
    rw [htl] at h
    exact absurd (congrArg Prod.snd h) (by simp)
  | some tempHist =>
    rw [htl] at h
    cases hft : ftOk with
    | false =>
      rw [hft] at h
      exact absurd (congrArg Prod.snd h) (by simp)
    | true =>
      rw [hft] at h
      simp only [Bool.not_true, Bool.false_eq_true, if_false] at h
      cases hbb : lookupKey ctx.work.branches ctx.targetBranch with
      | some bh =>
        rw [hbb] at h
        simp only [Option.isSome_some, Bool.not_true, Bool.false_eq_true, if_false] at h
        cases hcu : ctx.work.current with
        | none =>
          rw [hcu] at h
          exact absurd (congrArg Prod.snd h) (by simp)
        | some cur =>
          rw [hcu] at h
          simp only [] at h
          by_cases hne : cur = ctx.targetBranch
          · rw [hne] at h
            simp only [bne_self_eq_false, Bool.false_eq_true, if_false] at h
            injection h with h1 h2
            rw [← h1]
            dsimp only
            rw [lookupKey_setKey_self]
          · have hbne : (cur != ctx.targetBranch) = true := by
              simp [bne_iff_ne, hne]
            rw [hbne] at h
            simp only [if_true] at h
            cases hac : ac with
            | false =>
              rw [hac] at h
              exact absurd (congrArg Prod.snd h) (by simp)
            | true =>
              rw [hac] at h
              simp only [if_true] at h
              injection h with h1 h2
              rw [← h1]
              dsimp only
              rw [lookupKey_setKey_self]
      | none =>
        rw [hbb] at h
        simp only [Option.isSome_none, Bool.not_false, if_true] at h
        cases htt : lookupKey remote.branches ctx.targetBranch with
        | none =>
          rw [htt] at h
          exact absurd (congrArg Prod.snd h) (by simp)
        | some th =>
          rw [htt] at h
          cases hftg : ftgOk with
          | false =>
            rw [hftg] at h
            exact absurd (congrArg Prod.snd h) (by simp)
          | true =>
            rw [hftg] at h
            simp only [Bool.not_true, Bool.false_eq_true, if_false, bne_self_eq_false] at h
            injection h with h1 h2
            rw [← h1]
            dsimp only
            by_cases heq : ctx.targetBranch = ctx.temp
            · rw [heq, lookupKey_setKey_self]
              rw [heq] at htt
              rw [htt] at htl
              exact htl
            · rw [lookupKey_setKey_ne _ _ _ _ (fun hh => heq hh.symm),
                lookupKey_setKey_self]

/-- The upstream push fails only with the push-upstream error. -/
theorem syncUpstream_err (pushOk : Bool) (tb : String) (w : Repo) (r r2 : Remote)
    (e : ErrKind) (h : syncUpstream pushOk tb w r = (r2, some e)) :
    e = .pushUpstreamFailed := by
  unfold syncUpstream at h
  cases hl : lookupKey r.branches tb with
  | none =>
    rw [hl] at h
    dsimp only at h
    split at h
    · exact absurd (congrArg Prod.snd h) (by simp)
    · have h2 := congrArg Prod.snd h
      simp at h2
      exact h2.symm
  | some hh =>
    rw [hl] at h
    dsimp only at h
    split at h
    · exact absurd (congrArg Prod.snd h) (by simp)
    · have h2 := congrArg Prod.snd h
      simp at h2
      exact h2.symm

/-- C1 (amended): for every sync-back run that reaches the integration step
with work-branch tip `wh` and published staging commit `ph`: with `--force`
the work branch tip is set to `ph` regardless of divergence; without
`--force`, if the histories have truly diverged (neither is an ancestor of
the other) the run fails with the fast-forward error and the tip is
unchanged; if the work branch is strictly ahead (the published commit is an
ancestor of the tip) the merge reports already-up-to-date and the run does
not fail with the fast-forward error, the tip again unchanged. -/
theorem C1_amended (env : Env) (sr wr : String) (fs : FS) (remote : Remote) (cfg : Config)
    (args : SyncArgs) (wh ph : Hist)
    (hreach : (sync_back env sr wr fs remote cfg args).reachedIntegration = true)
    (hwh : (sync_back env sr wr fs remote cfg args).integTargetHist = some wh)
    (hph : (sync_back env sr wr fs remote cfg args).pushedHist = some ph) :
    (args.force = true →
      (sync_back env sr wr fs remote cfg args).finalTargetHist = some ph) ∧
    (args.force = false → wh.isSuffixOf ph = false → ph.isSuffixOf wh = false →
      (sync_back env sr wr fs remote cfg args).err = some .ffOnlyFailed ∧
      (sync_back env sr wr fs remote cfg args).finalTargetHist = some wh) ∧
    (args.force = false → ph.isSuffixOf wh = true → wh.isSuffixOf ph = false →
      (sync_back env sr wr fs remote cfg args).err ≠ some .ffOnlyFailed ∧
      (sync_back env sr wr fs remote cfg args).finalTargetHist = some wh) := by
  unfold sync_back at hreach hwh hph ⊢
  cases hg : syncGates env.now env.now2 sr wr fs remote cfg args with
  | error e =>
    rw [hg] at hreach
    simp at hreach
  | ok ctx =>
    rw [hg] at hreach hwh hph
    simp only [] at hreach hwh hph ⊢
    cases hp : syncPush env.pushTempOk remote ctx.temp ctx.pushHist with
    | error e =>
      rw [hp] at hreach
      simp at hreach
    | ok remote1 =>
      rw [hp] at hreach hwh hph
      simp only [] at hreach hwh hph ⊢
      rcases hm : syncMaterialize env.fetchTempOk env.fetchTargetOk args.auto_checkout
          ctx remote1 with ⟨workM, eM⟩
      rw [hm] at hreach hwh hph
      cases eM with
      | some e =>
        simp at hreach
      | none =>
        simp only [] at hwh hph ⊢
        have hp1 := syncPush_lookup env.pushTempOk remote ctx.temp ctx.pushHist remote1 hp
        have hm1 := syncMaterialize_remoteRefs env.fetchTempOk env.fetchTargetOk
          args.auto_checkout ctx remote1 workM hm
        rcases hi : syncIntegrate args.force ctx.targetBranch ctx.temp workM
            with ⟨workI, eI⟩
        rw [hi] at hwh hph
        cases eI with
        | some e =>
          simp only [] at hwh hph ⊢
          have hph2 : ctx.pushHist = ph := by injection hph
          have hfe : lookupKey workM.remoteRefs ctx.temp = some ph := by
            rw [hm1, hp1, hph2]
          refine ⟨?_, ?_, ?_⟩
          · intro hforce
            rw [hforce] at hi
            unfold syncIntegrate at hi
            rw [if_pos rfl] at hi
            exact absurd (congrArg Prod.snd hi) (by simp)
          · intro hnf h1 h2
            rw [hnf] at hi
            unfold syncIntegrate at hi
            rw [if_neg (by simp)] at hi
            simp only [] at hi
            rw [hwh, hfe] at hi
            simp only [Option.getD_some, h1, h2, Bool.false_eq_true, if_false] at hi
            injection hi with hi1 hi2
            injection hi2 with hi3
            constructor
            · rw [← hi3]
            · rw [← hi1]
              exact hwh
          · intro hnf h1 h2
            rw [hnf] at hi
            unfold syncIntegrate at hi
            rw [if_neg (by simp)] at hi
            simp only [] at hi
            rw [hwh, hfe] at hi
            simp only [Option.getD_some, h1, h2, Bool.false_eq_true, if_false,
              if_true] at hi
            exact absurd (congrArg Prod.snd hi) (by simp)
        | none =>
          simp only [] at hwh hph ⊢
          rcases hu : syncUpstream env.pushUpstreamOk ctx.targetBranch workI remote1
              with ⟨remote2, eU⟩
          rw [hu] at hwh hph
          cases eU with
          | some e =>
            simp only [] at hwh hph ⊢
            have hph2 : ctx.pushHist = ph := by injection hph
            have hfe : lookupKey workM.remoteRefs ctx.temp = some ph := by
              rw [hm1, hp1, hph2]
            refine ⟨?_, ?_, ?_⟩
            · intro hforce
              rw [hforce] at hi
              unfold syncIntegrate at hi
              rw [if_pos rfl] at hi
              injection hi with hi1 hi2
              rw [← hi1]
              dsimp only
              rw [lookupKey_setKey_self, hfe]
              rfl
            · intro hnf h1 h2
              rw [hnf] at hi
              unfold syncIntegrate at hi
              rw [if_neg (by simp)] at hi
              simp only [] at hi
              rw [hwh, hfe] at hi
              simp only [Option.getD_some, h1, h2, Bool.false_eq_true, if_false] at hi
              exact absurd (congrArg Prod.snd hi) (by simp)
            · intro hnf h1 h2
              rw [hnf] at hi
              unfold syncIntegrate at hi
              rw [if_neg (by simp)] at hi
              simp only [] at hi
              rw [hwh, hfe] at hi
              simp only [Option.getD_some, h1, h2, Bool.false_eq_true, if_false,
                if_true] at hi
              injection hi with hi1 hi2
              have he := syncUpstream_err env.pushUpstreamOk ctx.targetBranch workI
                remote1 remote2 e hu
              constructor
              · simp [he]
              · rw [← hi1]
                exact hwh
          | none =>
            simp only [] at hwh hph ⊢
            have hph2 : ctx.pushHist = ph := by injection hph
            have hfe : lookupKey workM.remoteRefs ctx.temp = some ph := by
              rw [hm1, hp1, hph2]
            refine ⟨?_, ?_, ?_⟩
            · intro hforce
              rw [hforce] at hi
              unfold syncIntegrate at hi
              rw [if_pos rfl] at hi
              injection hi with hi1 hi2
              rw [← hi1]
              dsimp only
              rw [lookupKey_setKey_self, hfe]
              rfl
            · intro hnf h1 h2
              rw [hnf] at hi
              unfold syncIntegrate at hi
              rw [if_neg (by simp)] at hi
              simp only [] at hi
              rw [hwh, hfe] at hi
              simp only [Option.getD_some, h1, h2, Bool.false_eq_true, if_false] at hi
              exact absurd (congrArg Prod.snd hi) (by simp)
            · intro hnf h1 h2
              rw [hnf] at hi
              unfold syncIntegrate at hi
              rw [if_neg (by simp)] at hi
              simp only [] at hi
              rw [hwh, hfe] at hi
              simp only [Option.getD_some, h1, h2, Bool.false_eq_true, if_false,
                if_true] at hi
              injection hi with hi1 hi2
              constructor
              · simp
              · rw [← hi1]
                exact hwh

/-- Witness for `C1_amended`: on the C1 scenario run with `--force`, the
work branch converges to the published staging commit `[0]`. -/
theorem C1_witness : c1ForceRun.finalTargetHist = some [0] :=
  (C1_amended c1Env "/s" "/w" [("/s/projx", .dir c1Stage), ("/w/projx", .dir c1Work)]
    { branches := [("main", [1, 0])] } { projects := [] } { c1Args with force := true }
    [1, 0] [0] (by decide) (by decide) (by decide)).1 (by decide)

/-- Observable fields of a sync-back run whose gates passed with context
`ctx`: the target branch, warning flag, work path and temp branch are those
the gates computed, and whenever the temporary push happened, the published
history is the context's push history. -/
theorem sync_back_fields (env : Env) (sr wr : String) (fs : FS) (remote : Remote)
    (cfg : Config) (args : SyncArgs) (ctx : Ctx)
    (hg : syncGates env.now env.now2 sr wr fs remote cfg args = .ok ctx) :
    (sync_back env sr wr fs remote cfg args).targetBranchUsed = some ctx.targetBranch ∧
    (sync_back env sr wr fs remote cfg args).warnedMissingBranch
      = ctx.warnedMissingBranch ∧
    (sync_back env sr wr fs remote cfg args).workPathUsed = some ctx.workPath ∧
    (sync_back env sr wr fs remote cfg args).usedTempBranch = some ctx.temp ∧
    ((sync_back env sr wr fs remote cfg args).pushedTemp = true →
      (sync_back env sr wr fs remote cfg args).pushedHist = some ctx.pushHist) := by
  unfold sync_back
  simp only [hg]
  cases hp : syncPush env.pushTempOk remote ctx.temp ctx.pushHist with
  | error e => simp
  | ok remote1 =>
    rcases hm : syncMaterialize env.fetchTempOk env.fetchTargetOk args.auto_checkout
        ctx remote1 with ⟨workM, eM⟩
    cases eM with
    | some e => simp [hm]
    | none =>
      rcases hi : syncIntegrate args.force ctx.targetBranch ctx.temp workM
          with ⟨workI, eI⟩
      cases eI with
      | some e => simp [hm, hi]
      | none =>
        rcases hu : syncUpstream env.pushUpstreamOk ctx.targetBranch workI remote1
            with ⟨remote2, eU⟩
        cases eU with
        | some e => simp [hm, hi, hu]
        | none => simp [hm, hi, hu]

/-- C10: whenever the gates of a sync-back pass, the commit published to
the temporary remote branch is the staging repository's HEAD — the tip of
its checked-out branch — even when `--branch` names a different branch:
`--branch` only selects the work-side target branch (with precedence
explicit argument, then recorded base branch, then staging HEAD branch),
and naming a branch that does not exist locally in staging merely raises
the warning flag, changing neither the published commit nor the outcome. -/
theorem C10_theorem (env : Env) (sr wr : String) (fs : FS) (remote : Remote)
    (cfg : Config) (args : SyncArgs) (sp wp wl : String) (stage work : Repo)
    (sb u tmp : String)
    (hsp : resolve_under_root sr args.staging_name = some sp)
    (hfs : lookupKey fs sp = some (.dir stage))
    (hsg : stage.hasGit = true)
    (hw : resolveWorkInfo wr (lookupKey cfg.projects args.staging_name) args = .ok (wp, wl))
    (hwfs : lookupKey fs wp = some (.dir work))
    (hwg : work.hasGit = true)
    (hds : (!args.allow_dirty_stage && stage.dirty) = false)
    (hdw : (!args.allow_dirty_work && work.dirty) = false)
    (hcur : stage.current = some sb)
    (hsu : stage.remoteUrl = some u)
    (hwu : work.remoteUrl = some u)
    (hsel : selectTempBranch args.temp_branch
        ((lookupKey cfg.projects args.staging_name).bind (·.temp_branch))
        (make_temp_branch_name args.staging_name sb env.now)
        (make_temp_branch_name args.staging_name sb env.now2) remote = .ok tmp) :
    (sync_back env sr wr fs remote cfg args).targetBranchUsed
      = some (args.branch.getD
          (((lookupKey cfg.projects args.staging_name).bind (·.base_branch)).getD sb)) ∧
    (sync_back env sr wr fs remote cfg args).warnedMissingBranch
      = (match args.branch with
         | some b => b != sb && (lookupKey stage.branches b).isNone
         | none => false) ∧
    ((sync_back env sr wr fs remote cfg args).pushedTemp = true →
      (sync_back env sr wr fs remote cfg args).pushedHist = some (headHist stage)) := by
  have hg := syncGates_ok env.now env.now2 sr wr fs remote cfg args sp wp wl stage work
    sb u tmp hsp hfs hsg hw hwfs hwg hds hdw hcur hsu hwu hsel
  have hf := sync_back_fields env sr wr fs remote cfg args _ hg
  exact ⟨hf.1, hf.2.1, hf.2.2.2.2⟩

/-- C10 concrete scenario: staging on `main` at `[4, 0]`; `--branch dev`
names a branch staging does not have. -/
def c10Stage : Repo :=
  { hasGit := true, branches := [("main", [4, 0])], upstreams := [], remoteRefs := [],
    current := some "main", dirty := false, remoteUrl := some "u" }

/-- C10 concrete scenario: work repository on `dev` at `[0]`. -/
def c10Work : Repo :=
  { hasGit := true, branches := [("dev", [0])], upstreams := [], remoteRefs := [],
    current := some "dev", dirty := false, remoteUrl := some "u" }

/-- C10 arguments: `--branch dev`. -/
def c10Args : SyncArgs :=
  { staging_name := "projx", work_name := none, branch := some "dev", temp_branch := none,
    auto_checkout := false, force := false, allow_dirty_stage := false,
    allow_dirty_work := false }

/-- C10 run. -/
def c10Run : SyncResult :=
  sync_back c1Env "/s" "/w" [("/s/projx", .dir c10Stage), ("/w/projx", .dir c10Work)]
    { branches := [("dev", [0])] } { projects := [] } c10Args

/-- Witness for `C10_theorem`: with `--branch dev` absent from staging, the
target is `dev`, the warning flag is raised, and the published commit is
still the staging HEAD `[4, 0]`. -/
theorem C10_witness :
    c10Run.targetBranchUsed = some "dev" ∧
    c10Run.warnedMissingBranch = true ∧
    c10Run.pushedHist = some (headHist c10Stage) :=
  have h := C10_theorem c1Env "/s" "/w"
    [("/s/projx", .dir c10Stage), ("/w/projx", .dir c10Work)]
    { branches := [("dev", [0])] } { projects := [] } c10Args "/s/projx" "/w/projx"
    "projx" c10Stage c10Work "main" "u"
    (make_temp_branch_name "projx" "main" 7)
    (by decide) (by decide) (by decide) (by rfl) (by decide) (by decide) (by decide)
    (by decide) (by decide) (by decide) (by decide) (by rfl)
  ⟨h.1, h.2.1, h.2.2 (by decide)⟩

/-- When the two repositories report different remote urls, the gates
abort with the remote-mismatch error. -/
theorem syncGates_mismatch (now now2 : Nat) (sr wr : String) (fs : FS) (remote : Remote)
    (cfg : Config) (args : SyncArgs) (sp wp wl : String) (stage work : Repo)
    (sb su wu : String)
    (hsp : resolve_under_root sr args.staging_name = some sp)
    (hfs : lookupKey fs sp = some (.dir stage))
    (hsg : stage.hasGit = true)
    (hw : resolveWorkInfo wr (lookupKey cfg.projects args.staging_name) args = .ok (wp, wl))
    (hwfs : lookupKey fs wp = some (.dir work))
    (hwg : work.hasGit = true)
    (hds : (!args.allow_dirty_stage && stage.dirty) = false)
    (hdw : (!args.allow_dirty_work && work.dirty) = false)
    (hcur : stage.current = some sb)
    (hsu : stage.remoteUrl = some su)
    (hwu : work.remoteUrl = some wu)
    (hne : (wu != su) = true) :
    syncGates now now2 sr wr fs remote cfg args = .error .remoteMismatch := by
  unfold syncGates
  rw [hsp]
  simp only [hfs, hsg, hw, hwfs, hwg, hds, hdw, hcur, hsu, hwu, Bool.not_true,
    Bool.false_eq_true, if_false, hne, if_true]

/-- The gate phase never reads the registry entry's recorded remote url:
replacing that field changes nothing. -/
theorem syncGates_entry_remote_irrelevant (now now2 : Nat) (sr wr : String) (fs : FS)
    (remote : Remote) (cfgP : List (String × Entry)) (ent : Entry) (v : Option String)
    (args : SyncArgs) :
    syncGates now now2 sr wr fs remote
        { projects := setKey cfgP args.staging_name { ent with remote := v } } args
      = syncGates now now2 sr wr fs remote
        { projects := setKey cfgP args.staging_name ent } args := by
  unfold syncGates
  rw [show ({ projects := setKey cfgP args.staging_name { ent with remote := v } }
        : Config).projects = setKey cfgP args.staging_name { ent with remote := v }
      from rfl,
    show ({ projects := setKey cfgP args.staging_name ent } : Config).projects
        = setKey cfgP args.staging_name ent from rfl,
    lookupKey_setKey_self cfgP args.staging_name { ent with remote := v },
    lookupKey_setKey_self cfgP args.staging_name ent]
  rfl

/-- C4 (amended): at sync-back only the urls read from the two repositories
are compared — a staging/work mismatch is a hard error that aborts before
any mutation and leaves the registry untouched; the url recorded in the
registry entry is never consulted (replacing it cannot change the
outcome), and on success it is overwritten with the url read from
staging rather than validated. -/
theorem C4_amended (env : Env) (sr wr : String) (fs : FS) (remote : Remote)
    (cfg : Config) (args : SyncArgs) (sp wp wl : String) (stage work : Repo)
    (sb su wu : String)
    (hsp : resolve_under_root sr args.staging_name = some sp)
    (hfs : lookupKey fs sp = some (.dir stage))
    (hsg : stage.hasGit = true)
    (hw : resolveWorkInfo wr (lookupKey cfg.projects args.staging_name) args = .ok (wp, wl))
    (hwfs : lookupKey fs wp = some (.dir work))
    (hwg : work.hasGit = true)
    (hds : (!args.allow_dirty_stage && stage.dirty) = false)
    (hdw : (!args.allow_dirty_work && work.dirty) = false)
    (hcur : stage.current = some sb)
    (hsu : stage.remoteUrl = some su)
    (hwu : work.remoteUrl = some wu)
    (hne : (wu != su) = true) :
    ((sync_back env sr wr fs remote cfg args).err = some .remoteMismatch ∧
     (sync_back env sr wr fs remote cfg args).fs = fs ∧
     (sync_back env sr wr fs remote cfg args).remote = remote ∧
     (sync_back env sr wr fs remote cfg args).config = cfg ∧
     (sync_back env sr wr fs remote cfg args).pushedTemp = false) ∧
    (∀ (cfgP : List (String × Entry)) (ent : Entry) (v : Option String),
      (sync_back env sr wr fs remote
          { projects := setKey cfgP args.staging_name { ent with remote := v } } args).err
        = (sync_back env sr wr fs remote
          { projects := setKey cfgP args.staging_name ent } args).err) := by
  constructor
  · have hg := syncGates_mismatch env.now env.now2 sr wr fs remote cfg args sp wp wl
      stage work sb su wu hsp hfs hsg hw hwfs hwg hds hdw hcur hsu hwu hne
    unfold sync_back
    simp [hg]
  · intro cfgP ent v
    unfold sync_back
    rw [syncGates_entry_remote_irrelevant env.now env.now2 sr wr fs remote cfgP ent v
      args]
    cases hg2 : syncGates env.now env.now2 sr wr fs remote
        { projects := setKey cfgP args.staging_name ent } args with
    | error e => simp
    | ok ctx =>
      cases hp : syncPush env.pushTempOk remote ctx.temp ctx.pushHist with
      | error e => simp [hp]
      | ok remote1 =>
        rcases hm : syncMaterialize env.fetchTempOk env.fetchTargetOk args.auto_checkout
            ctx remote1 with ⟨workM, eM⟩
        cases eM with
        | some e => simp [hp, hm]
        | none =>
          rcases hi : syncIntegrate args.force ctx.targetBranch ctx.temp workM
              with ⟨workI, eI⟩
          cases eI with
          | some e => simp [hp, hm, hi]
          | none =>
            rcases hu : syncUpstream env.pushUpstreamOk ctx.targetBranch workI remote1
                with ⟨remote2, eU⟩
            cases eU with
            | some e => simp [hp, hm, hi, hu]
            | none => simp [hp, hm, hi, hu]

/-- C4 mismatch scenario: staging reports url `Y`, work reports url `Z`. -/
def c4MWork : Repo :=
  { hasGit := true, branches := [("main", [0])], upstreams := [], remoteRefs := [],
    current := some "main", dirty := false, remoteUrl := some "Z" }

/-- Witness for `C4_amended`: a staging/work url mismatch is fatal and
mutates nothing. -/
theorem C4_witness :
    (sync_back c4Env "/s" "/w" [("/s/projx", .dir c4Stage), ("/w/projx", .dir c4MWork)]
        { branches := [("main", [0])] } { projects := [] } c4Args).err
      = some .remoteMismatch ∧
    (sync_back c4Env "/s" "/w" [("/s/projx", .dir c4Stage), ("/w/projx", .dir c4MWork)]
        { branches := [("main", [0])] } { projects := [] } c4Args).config
      = { projects := [] } :=
  have h := C4_amended c4Env "/s" "/w"
    [("/s/projx", .dir c4Stage), ("/w/projx", .dir c4MWork)]
    { branches := [("main", [0])] } { projects := [] } c4Args "/s/projx" "/w/projx"
    "projx" c4Stage c4MWork "main" "Y" "Z"
    (by decide) (by decide) (by decide) (by rfl) (by decide) (by decide) (by decide)
    (by decide) (by decide) (by decide) (by decide) (by decide)
  ⟨h.1.1, h.1.2.2.2.1⟩

/-- C5 (amended): the temporary branch is chosen with precedence explicit
`--temp-branch`, else the recorded temp branch, else a freshly generated
name; but the remote-absence check runs only when an explicit name was
given or no name was recorded: an explicit name that exists remotely is
fatal; a freshly generated name that collides is regenerated once (with a
later clock reading, unchecked); a recorded temp branch is reused without
any remote-existence check, even when it exists on the remote. -/
theorem C5_amended (explicitT recordedT : Option String) (generated regen : String)
    (remote : Remote) :
    (∀ t, explicitT = some t → (lookupKey remote.branches t).isSome = false →
      selectTempBranch explicitT recordedT generated regen remote = .ok t) ∧
    (∀ t, explicitT = some t → (lookupKey remote.branches t).isSome = true →
      selectTempBranch explicitT recordedT generated regen remote
        = .error .tempBranchTaken) ∧
    (∀ t, explicitT = none → recordedT = some t →
      selectTempBranch explicitT recordedT generated regen remote = .ok t) ∧
    (explicitT = none → recordedT = none →
      selectTempBranch explicitT recordedT generated regen remote
        = .ok (if (lookupKey remote.branches generated).isSome then regen
               else generated)) := by
  refine ⟨?_, ?_, ?_, ?_⟩
  · intro t he hno
    rw [he]
    unfold selectTempBranch chooseTempBranch resolveTempCollision
    simp [hno]
  · intro t he hyes
    rw [he]
    unfold selectTempBranch chooseTempBranch resolveTempCollision
    simp [hyes]
  · intro t he hr
    rw [he, hr]
    unfold selectTempBranch chooseTempBranch resolveTempCollision
    simp
  · intro he hr
    rw [he, hr]
    unfold selectTempBranch chooseTempBranch resolveTempCollision
    by_cases hex : (lookupKey remote.branches generated).isSome = true
    · simp [hex]
    · simp only [Bool.not_eq_true] at hex
      simp [hex]

/-- Witness for `C5_amended`: a recorded temporary branch `t` is reused
although it exists on the remote; a colliding explicit name is fatal. -/
theorem C5_witness :
    selectTempBranch none (some "t") "g" "g2" { branches := [("t", [0])] } = .ok "t" ∧
    selectTempBranch (some "t") none "g" "g2" { branches := [("t", [0])] }
      = .error .tempBranchTaken :=
  ⟨(C5_amended none (some "t") "g" "g2" { branches := [("t", [0])] }).2.2.1 "t" rfl rfl,
   (C5_amended (some "t") none "g" "g2" { branches := [("t", [0])] }).2.1 "t" rfl
     (by decide)⟩

/-- C6: for a clone whose computed staging target path already exists:
without `--force` the operation fails and leaves filesystem, remote and
registry untouched; with `--force` and the target equal to the source it
refuses and fails, again touching nothing; with `--force` otherwise (and
the remaining steps able to succeed) the existing tree is removed and the
target is replaced by the freshly initialized staging repository. -/
theorem C6_theorem (env : Env) (sr wr : String) (fs : FS) (remote : Remote) (cfg : Config)
    (args : CloneArgs) (wn tnode : FSNode) (source target : String) (src : Repo)
    (branch url tempName : String) (bh : Hist)
    (hwr : lookupKey fs wr = some wn)
    (hres : resolve_under_root wr args.project = some source)
    (hsrc : lookupKey fs source = some (.dir src))
    (hsg : src.hasGit = true)
    (hcur : src.current = some branch)
    (hurl : src.remoteUrl = some url)
    (hbr : lookupKey remote.branches branch = some bh)
    (htgt : resolve_under_root sr (args.as_name.getD (pathName args.project))
      = some target)
    (hex : lookupKey fs target = some tnode)
    (htn : (args.temp_branch).getD
        (make_temp_branch_name (relativeTo sr target) branch env.now) = tempName) :
    (args.force = false →
      (clone_project env sr wr fs remote cfg args).err = some .targetExistsNoForce ∧
      (clone_project env sr wr fs remote cfg args).fs = fs ∧
      (clone_project env sr wr fs remote cfg args).remote = remote ∧
      (clone_project env sr wr fs remote cfg args).config = cfg) ∧
    (args.force = true → target = source →
      (clone_project env sr wr fs remote cfg args).err = some .refuseRemoveSource ∧
      (clone_project env sr wr fs remote cfg args).fs = fs ∧
      (clone_project env sr wr fs remote cfg args).remote = remote ∧
      (clone_project env sr wr fs remote cfg args).config = cfg) ∧
    (args.force = true → target ≠ source →
      lookupKey remote.branches tempName = none →
      env.clonePushOk = true → env.cloneFetchOk = true →
      (clone_project env sr wr fs remote cfg args).err = none ∧
      (clone_project env sr wr fs remote cfg args).removedExisting = true ∧
      lookupKey (clone_project env sr wr fs remote cfg args).fs target
        = some (.dir
          { hasGit := true, branches := [(tempName, headHist src)],
            upstreams := [(tempName, "origin/" ++ tempName)],
            remoteRefs := [(tempName, headHist src)],
            current := some tempName, dirty := false, remoteUrl := some url })) := by
  refine ⟨?_, ?_, ?_⟩
  · intro hf
    unfold clone_project
    rw [hwr, hres]
    simp [hsrc, hsg, hcur, hurl, hbr, htgt, hex, hf]
  · intro hf heq
    unfold clone_project
    rw [hwr, hres]
    simp [hsrc, hsg, hcur, hurl, hbr, htgt, hex, hf, heq]
  · intro hf hne habs hcp hcf
    unfold clone_project
    rw [hwr, hres]
    simp only [hsrc, hsg, hcur, hurl, hbr, htgt, hex, hf, htn, habs, hcp, hcf,
      Bool.not_true, Bool.not_false, Bool.false_eq_true, if_false, if_true,
      Option.isSome_none, hne]
    refine ⟨?_, ?_, ?_⟩
    · simp [init_staging_repo, lookupKey_setKey_self]
    · simp [init_staging_repo, lookupKey_setKey_self]
    · simp [init_staging_repo, lookupKey_setKey_self, setKey]

/-- C6 concrete scenario: a stale directory already sits at the staging
target path. -/
def c6Stale : Repo :=
  { hasGit := false, branches := [], upstreams := [], remoteRefs := [],
    current := none, dirty := false, remoteUrl := none }

/-- C6 filesystem: work root, source project, and the existing target. -/
def c6FS : FS :=
  [("/w", .dir c8RootDir), ("/w/projx", .dir c8Src), ("/s/projx", .dir c6Stale)]

/-- Witness for `C6_theorem`: without `--force` the clone fails and the
existing directory is untouched; with `--force` it is replaced. -/
theorem C6_witness :
    ((clone_project c8Env "/s" "/w" c6FS { branches := [("main", [0])] }
        { projects := [] } c8Args).err = some .targetExistsNoForce ∧
     (clone_project c8Env "/s" "/w" c6FS { branches := [("main", [0])] }
        { projects := [] } c8Args).fs = c6FS) ∧
    ((clone_project c8Env "/s" "/w" c6FS { branches := [("main", [0])] }
        { projects := [] } { c8Args with force := true }).err = none ∧
     (clone_project c8Env "/s" "/w" c6FS { branches := [("main", [0])] }
        { projects := [] } { c8Args with force := true }).removedExisting = true) :=
  have h1 := C6_theorem c8Env "/s" "/w" c6FS { branches := [("main", [0])] }
    { projects := [] } c8Args (.dir c8RootDir) (.dir c6Stale) "/w/projx" "/s/projx"
    c8Src "main" "u" "staging-sync/projx-main-7" [0]
    (by decide) (by decide) (by decide) (by decide) (by decide) (by decide) (by decide)
    (by decide) (by decide) (by decide)
  have h2 := C6_theorem c8Env "/s" "/w" c6FS { branches := [("main", [0])] }
    { projects := [] } { c8Args with force := true } (.dir c8RootDir) (.dir c6Stale)
    "/w/projx" "/s/projx" c8Src "main" "u" "staging-sync/projx-main-7" [0]
    (by decide) (by decide) (by decide) (by decide) (by decide) (by decide) (by decide)
    (by decide) (by decide) (by decide)
  have h3 := h2.2.2 (by decide) (by decide) (by decide) (by decide) (by decide)
  ⟨⟨(h1.1 (by decide)).1, (h1.1 (by decide)).2.1⟩, ⟨h3.1, h3.2.1⟩⟩

/-- C8 (amended): a successful clone initializes the staging repository
with the shared remote url and fetches the temporary branch, but the local
branch it checks out is named after the *temporary branch* (not the source
branch's base name), tracks `origin/<temp>`, and sits at the source's HEAD
commit; the registry records the temporary branch as the staging branch and
the source branch only as `base_branch`. -/
theorem C8_amended (env : Env) (sr wr : String) (fs : FS) (remote : Remote) (cfg : Config)
    (args : CloneArgs) (wn : FSNode) (source target : String) (src : Repo)
    (branch url tempName : String) (bh : Hist)
    (hwr : lookupKey fs wr = some wn)
    (hres : resolve_under_root wr args.project = some source)
    (hsrc : lookupKey fs source = some (.dir src))
    (hsg : src.hasGit = true)
    (hcur : src.current = some branch)
    (hurl : src.remoteUrl = some url)
    (hbr : lookupKey remote.branches branch = some bh)
    (htgt : resolve_under_root sr (args.as_name.getD (pathName args.project))
      = some target)
    (hex : lookupKey fs target = none)
    (htn : (args.temp_branch).getD
        (make_temp_branch_name (relativeTo sr target) branch env.now) = tempName)
    (habs : lookupKey remote.branches tempName = none)
    (hcp : env.clonePushOk = true)
    (hcf : env.cloneFetchOk = true) :
    (clone_project env sr wr fs remote cfg args).err = none ∧
    lookupKey (clone_project env sr wr fs remote cfg args).fs target
      = some (.dir
        { hasGit := true, branches := [(tempName, headHist src)],
          upstreams := [(tempName, "origin/" ++ tempName)],
          remoteRefs := [(tempName, headHist src)],
          current := some tempName, dirty := false, remoteUrl := some url }) ∧
    lookupKey (clone_project env sr wr fs remote cfg args).remote.branches tempName
      = some (headHist src) ∧
    lookupKey (clone_project env sr wr fs remote cfg args).config.projects
        (relativeTo sr target)
      = some
        { work_name := some args.project, work_path := source,
          staging_path := some target, branch := none, base_branch := some branch,
          staging_branch := some tempName, remote := some url,
          temp_branch := some tempName, last_temp_branch := none } := by
  unfold clone_project
  rw [hwr, hres]
  simp only [hsrc, hsg, hcur, hurl, hbr, htgt, hex, htn, habs, hcp, hcf,
    Bool.not_true, Bool.not_false, Bool.false_eq_true, if_false, if_true,
    Option.isSome_none]
  refine ⟨?_, ?_, ?_, ?_⟩
  · simp [init_staging_repo, lookupKey_setKey_self]
  · simp [init_staging_repo, lookupKey_setKey_self, setKey]
  · simp [init_staging_repo, lookupKey_setKey_self]
  · simp [init_staging_repo, lookupKey_setKey_self]

/-- Witness for `C8_amended` at the C8 scenario: the staging branch is the
temporary branch name. -/
theorem C8_witness :
    c8Run.err = none ∧
    lookupKey c8Run.fs "/s/projx" = some (.dir c8ResultRepo) :=
  have h := C8_amended c8Env "/s" "/w" c8FS { branches := [("main", [0])] }
    { projects := [] } c8Args (.dir c8RootDir) "/w/projx" "/s/projx" c8Src "main" "u"
    "staging-sync/projx-main-7" [0]
    (by decide) (by decide) (by decide) (by decide) (by decide) (by decide) (by decide)
    (by decide) (by decide) (by decide) (by decide) (by decide) (by decide)
  ⟨h.1, h.2.1⟩

/-- C9 (amended): during materialization in the work repository (with the
temporary branch present on the remote and fetches able to succeed): if the
target branch is missing locally it is created from and tracking
`origin/<target branch>` — which must itself exist on the remote, else the
step fails — and checked out in the process; if the target branch exists
but is not the current branch, the step switches only under
`--auto-checkout` and otherwise fails, leaving the local branches
unchanged. -/
theorem C9_amended (ftg ac : Bool) (ctx : Ctx) (remote : Remote) (tempHist : Hist)
    (htemp : lookupKey remote.branches ctx.temp = some tempHist) :
    (∀ th, lookupKey ctx.work.branches ctx.targetBranch = none →
      lookupKey remote.branches ctx.targetBranch = some th → ftg = true →
      syncMaterialize true ftg ac ctx remote =
        ({ ctx.work with
            remoteRefs := setKey (setKey ctx.work.remoteRefs ctx.temp tempHist)
              ctx.targetBranch th,
            branches := setKey ctx.work.branches ctx.targetBranch th,
            upstreams := setKey ctx.work.upstreams ctx.targetBranch
              ("origin/" ++ ctx.targetBranch),
            current := some ctx.targetBranch }, none)) ∧
    (lookupKey ctx.work.branches ctx.targetBranch = none →
      lookupKey remote.branches ctx.targetBranch = none →
      syncMaterialize true ftg ac ctx remote =
        ({ ctx.work with remoteRefs := setKey ctx.work.remoteRefs ctx.temp tempHist },
         some .fetchTargetFailed)) ∧
    (∀ bh cur, lookupKey ctx.work.branches ctx.targetBranch = some bh →
      ctx.work.current = some cur → cur ≠ ctx.targetBranch → ac = false →
      syncMaterialize true ftg ac ctx remote =
        ({ ctx.work with remoteRefs := setKey ctx.work.remoteRefs ctx.temp tempHist },
         some .notOnTargetBranch)) ∧
    (∀ bh cur, lookupKey ctx.work.branches ctx.targetBranch = some bh →
      ctx.work.current = some cur → cur ≠ ctx.targetBranch → ac = true →
      syncMaterialize true ftg ac ctx remote =
        ({ ctx.work with
            remoteRefs := setKey ctx.work.remoteRefs ctx.temp tempHist,
            current := some ctx.targetBranch }, none)) := by
  refine ⟨?_, ?_, ?_, ?_⟩
  · intro th hmiss hrt hftg
    simp [syncMaterialize, htemp, hmiss, hrt, hftg]
  · intro hmiss hrt
    simp [syncMaterialize, htemp, hmiss, hrt]
  · intro bh cur hhave hcu hne hac
    simp [syncMaterialize, htemp, hhave, hcu, hac, bne_iff_ne, hne]
  · intro bh cur hhave hcu hne hac
    simp [syncMaterialize, htemp, hhave, hcu, hac, bne_iff_ne, hne]

/-- C9 scenario context for the witness: work on `dev`, target `main`
absent locally. -/
def c9Ctx : Ctx :=
  { stagePath := "/s/projx", workPath := "/w/projx", workLabel := "projx",
    stage := c9Stage, work := c9Work, stagingBranch := "main", targetBranch := "main",
    temp := "staging-sync/projx-main-7", remoteUrl := "u", pushHist := [7, 5],
    warnedMissingBranch := false }

/-- Witness for `C9_amended`: the bootstrap creates local `main` from
`origin/main` at `[9]` — not from the temporary branch's commit `[7, 5]` —
and sets it to track `origin/main`. -/
theorem C9_witness :
    syncMaterialize true true false c9Ctx
        { branches := [("staging-sync/projx-main-7", [7, 5]), ("main", [9])] } =
      ({ c9Work with
          remoteRefs := setKey (setKey c9Work.remoteRefs "staging-sync/projx-main-7"
            [7, 5]) "main" [9],
          branches := setKey c9Work.branches "main" [9],
          upstreams := setKey c9Work.upstreams "main" "origin/main",
          current := some "main" }, none) :=
  (C9_amended true false c9Ctx
      { branches := [("staging-sync/projx-main-7", [7, 5]), ("main", [9])] } [7, 5]
      (by decide)).1 [9] (by decide) (by decide) (by decide)

end StageSync
